import Mathlib

/-!
# Local Library (Express + Mongoose): handlers, validation chains and store

A shallow embedding of the controllers `authorController.js`, `bookController.js`,
`bookinstanceController.js`, `genreController.js` and of the models they use.

* A request body field is absent or a string (what the url-encoded body reader yields).
* The database is four lists of documents in insertion order; a query is a pure function of
  the store and an insert, update or delete returns the new store.
* A handler is a function from the store and the request to the new store and the one response
  it produces: a render, a redirect, a call of `next(err)`, or an exception that leaves an async
  handler which has no `try`/`catch`.
* An `ObjectId` is well-formed by construction. The detail handlers take the raw route
  parameter and cast it, as the queries do; the other handlers take the identifier that the cast
  of their parameter yields. The reference fields of the create and update forms are raw
  strings which the model constructor casts.
* The Genre lookup takes the collation of the database as a parameter.
* A virtual that calls `moment` takes the wall clock and the time zone as a parameter.
-/

set_option autoImplicit false

namespace LocalLibrary

/-! ## Strings: the functions of validator.js that the chains call -/

/-- The characters matched by `\s` in a JavaScript regular expression. -/
def isWhitespace (c : Char) : Bool :=
  let n := c.toNat
  n = 9 || n = 10 || n = 11 || n = 12 || n = 13 || n = 32 || n = 160 || n = 5760
    || (8192 ≤ n && n ≤ 8202) || n = 8232 || n = 8233 || n = 8239 || n = 8287
    || n = 12288 || n = 65279

/-- Drop leading whitespace (`ltrim` without a character set). -/
def ltrimChars : List Char → List Char
  | [] => []
  | c :: cs => if isWhitespace c then ltrimChars cs else c :: cs

/-- Drop trailing whitespace (`rtrim` without a character set). -/
def rtrimChars (cs : List Char) : List Char :=
  (ltrimChars cs.reverse).reverse

/-- The sanitizer `trim()`: `rtrim(ltrim(str))`. -/
def trim (s : String) : String :=
  ⟨rtrimChars (ltrimChars s.data)⟩

/-- The replacement `escape()` makes for one character:
`&`, `"`, the apostrophe, `<`, `>`, `/`, the backslash and the backtick become entities. -/
def escapeChar (c : Char) : List Char :=
  let n := c.toNat
  if n = 38 then "&amp;".data
  else if n = 34 then "&quot;".data
  else if n = 39 then "&#x27;".data
  else if n = 60 then "&lt;".data
  else if n = 62 then "&gt;".data
  else if n = 47 then "&#x2F;".data
  else if n = 92 then "&#x5C;".data
  else if n = 96 then "&#96;".data
  else [c]

/-- The sanitizer `escape()`. -/
def escape (s : String) : String :=
  ⟨s.data.flatMap escapeChar⟩

/-- The variation selectors U+FE0E and U+FE0F, which `isLength` does not count. -/
def isPresentationSelector (c : Char) : Bool :=
  c.toNat = 65038 || c.toNat = 65039

/-- The validator `isLength({ min })`: the length is the number of code points (a surrogate
pair counts once) less the number of variation selectors U+FE0E and U+FE0F. -/
def isLength (min : Nat) (s : String) : Bool :=
  decide (min ≤ s.data.length - s.data.countP isPresentationSelector)

/-- The character class `[0-9A-Z]` under the flag `i`. -/
def isAlnumChar (c : Char) : Bool :=
  let n := c.toNat
  (48 ≤ n && n ≤ 57) || (65 ≤ n && n ≤ 90) || (97 ≤ n && n ≤ 122)

/-- The validator `isAlphanumeric()` with its default locale `en-US`: `/^[0-9A-Z]+$/i`. -/
def isAlphanumeric (s : String) : Bool :=
  !s.data.isEmpty && s.data.all isAlnumChar

/-- The length of a string as JavaScript counts it, in UTF-16 code units. -/
def jsLength (s : String) : Nat :=
  (s.data.map fun c => if 65536 ≤ c.toNat then 2 else 1).sum

/-- Lower-case the ASCII letters of a string. -/
def lower (s : String) : String :=
  ⟨s.data.map Char.toLower⟩

/-- The collation `{ locale: "en", strength: 2 }` of the database, which the embedding leaves
open: `equal stored looked` says whether a stored name and the name looked up are equal under
it. Strength 2 ignores letter case. -/
structure Collation where
  equal : String → String → Bool

/-- Lexicographic comparison by code point, the order of a simple binary collation. -/
def charsLe : List Char → List Char → Bool
  | [], _ => true
  | _ :: _, [] => false
  | a :: as, b :: bs => if a.toNat < b.toNat then true else if b.toNat < a.toNat then false
      else charsLe as bs

/-! ## Values, documents and the store -/

/-- A lower-case hexadecimal digit. -/
def isLowerHexChar (c : Char) : Bool :=
  let n := c.toNat
  (48 ≤ n && n ≤ 57) || (97 ≤ n && n ≤ 102)

/-- The form in which an identifier is printed: 24 lower-case hexadecimal digits. -/
def isObjectIdHex (s : String) : Bool :=
  decide (s.data.length = 24) && s.data.all isLowerHexChar

/-- An identifier of a stored document, in the hexadecimal form in which it is printed. -/
structure ObjectId where
  hex : String
  wf : isObjectIdHex hex = true
deriving DecidableEq, Repr

/-- A JavaScript `Date`: milliseconds since the epoch. -/
structure JsDate where
  time : Int
deriving DecidableEq, Repr

/-- A field of a document: missing, `null`, or holding a value. -/
inductive Field (α : Type) where
  | undef
  | null
  | val (a : α)
deriving DecidableEq, Repr

/-- The field as it is concatenated into a string. -/
def Field.show : Field String → String
  | .undef => "undefined"
  | .null => "null"
  | .val s => s

/-- A value of a scalar body field once a chain has run on it. -/
inductive Val where
  | undef
  | null
  | str (s : String)
  | date (d : JsDate)
deriving DecidableEq, Repr

/-- The date functions of validator.js, JavaScript and Mongoose, which the embedding leaves
open: the ISO 8601 test, the parse behind `toDate()` (`none` when the string does not parse),
`Date.prototype.toISOString`, `Date.prototype.toString`, and the cast of a non-empty string to
a `Date` field (`none` when the cast fails). -/
structure DateLib where
  isISO8601 : String → Bool
  toDate : String → Option JsDate
  toISOString : JsDate → String
  dateToString : JsDate → String
  castDate : String → Option JsDate

/-- A date library that recognises no string, for closed examples without dates. -/
def DateLib.none : DateLib where
  isISO8601 := fun _ => false
  toDate := fun _ => Option.none
  toISOString := fun _ => ""
  dateToString := fun _ => ""
  castDate := fun _ => Option.none

/-- One entry of `validationResult(req).array()`. -/
structure ValidationError where
  path : String
  msg : String
  value : Val
deriving DecidableEq, Repr

/-- The string a standard validator or sanitizer sees (`toString` of express-validator). -/
def Val.toStr (L : DateLib) : Val → String
  | .undef => ""
  | .null => ""
  | .str s => s
  | .date d => L.toISOString d

/-- JavaScript truthiness of a body value. -/
def Val.truthy : Val → Bool
  | .str s => !s.data.isEmpty
  | .date _ => true
  | _ => false

/-- A body field as the body reader yields it. -/
def Val.ofBody : Option String → Val
  | none => .undef
  | some s => .str s

/-- One link of a validation chain. -/
inductive Item where
  | trim
  | escape
  | toDate
  | isLength (min : Nat) (msg : String)
  | isAlphanumeric (msg : String)
  | isISO8601 (msg : String)

/-- Run one link on the current value of the field: a sanitizer replaces the value, a validator
records an error when the test fails and leaves the value as it is. -/
def Item.run (L : DateLib) (path : String) (v : Val) : Item → Val × List ValidationError
  | .trim => (.str (LocalLibrary.trim (v.toStr L)), [])
  | .escape => (.str (LocalLibrary.escape (v.toStr L)), [])
  | .toDate => ((match L.toDate (v.toStr L) with | some d => .date d | Option.none => .null), [])
  | .isLength min msg =>
      (v, if LocalLibrary.isLength min (v.toStr L) then [] else [⟨path, msg, v⟩])
  | .isAlphanumeric msg =>
      (v, if LocalLibrary.isAlphanumeric (v.toStr L) then [] else [⟨path, msg, v⟩])
  | .isISO8601 msg => (v, if L.isISO8601 (v.toStr L) then [] else [⟨path, msg, v⟩])

/-- Run a chain `body(path)...` on a field. With `optional({ values: "falsy" })` a link is
skipped while the current value is falsy. Errors come out in the order of the links. -/
def runChain (L : DateLib) (path : String) (optionalFalsy : Bool) :
    List Item → Val → Val × List ValidationError
  | [], v => (v, [])
  | it :: rest, v =>
      if optionalFalsy && !v.truthy then runChain L path optionalFalsy rest v
      else
        let r := it.run L path v
        let r2 := runChain L path optionalFalsy rest r.1
        (r2.1, r.2 ++ r2.2)

/-! ## Models -/

/-- The model `Author` (models/author.js). -/
structure Author where
  _id : ObjectId
  first_name : Field String
  family_name : Field String
  date_of_birth : Field JsDate
  date_of_death : Field JsDate
deriving DecidableEq, Repr

/-- The virtual `name`: `this.family_name + ", " + this.first_name`. -/
def Author.name (a : Author) : String :=
  a.family_name.show ++ ", " ++ a.first_name.show

/-- The virtual `url` of an Author. -/
def Author.url (a : Author) : String :=
  "/catalog/author/" ++ a._id.hex

/-- The model `Genre` (models/genre.js). -/
structure Genre where
  _id : ObjectId
  name : Field String
deriving DecidableEq, Repr

/-- The virtual `url` of a Genre. -/
def Genre.url (g : Genre) : String :=
  "/catalog/genre/" ++ g._id.hex

/-- Modelled from the spec: models/book.js is not among the sources. The spec gives a Book a
title, an author (reference to Author, required), a summary, an isbn and a genre (set of
references to Genre), and a derived detail URL. -/
structure Book where
  _id : ObjectId
  title : Field String
  author : Field ObjectId
  summary : Field String
  isbn : Field String
  genre : List ObjectId
deriving DecidableEq, Repr

/-- Modelled from the spec: the detail URL of a Book, `/catalog/book/:id` (models/book.js is
not among the sources). -/
def Book.url (b : Book) : String :=
  "/catalog/book/" ++ b._id.hex

/-- The model `BookInstance` (models/bookinstance.js). -/
structure BookInstance where
  _id : ObjectId
  book : Field ObjectId
  imprint : Field String
  status : Field String
  due_back : Field JsDate
deriving DecidableEq, Repr

/-- The virtual `url` of a BookInstance. -/
def BookInstance.url (b : BookInstance) : String :=
  "/catalog/bookinstance/" ++ b._id.hex

/-- The four collections, each in insertion order. -/
structure Db where
  authors : List Author
  genres : List Genre
  books : List Book
  bookinstances : List BookInstance
deriving DecidableEq, Repr

/-- Identifiers are unique within each collection (the unique index on `_id`). -/
def Db.UniqueIds (db : Db) : Prop :=
  (db.authors.map (·._id)).Nodup ∧ (db.genres.map (·._id)).Nodup ∧
    (db.books.map (·._id)).Nodup ∧ (db.bookinstances.map (·._id)).Nodup

/-- Uniqueness of the identifiers can be checked. -/
instance (db : Db) : Decidable db.UniqueIds := by
  unfold Db.UniqueIds
  infer_instance

/-! ## Casting by the model constructors -/

/-- A document under construction: the document and whether a field failed to cast. A field
that fails to cast stays unset and makes `save()` fail validation. -/
structure Built (α : Type) where
  doc : α
  castFailed : Bool
deriving DecidableEq, Repr

/-- Cast to a `String` field. -/
def castString (L : DateLib) : Val → Field String
  | .undef => .undef
  | .null => .null
  | .str s => .val s
  | .date d => .val (L.dateToString d)

/-- Cast to a `Date` field: the empty string becomes `null`; `none` is a failed cast. -/
def castDateField (L : DateLib) : Val → Option (Field JsDate)
  | .undef => some .undef
  | .null => some .null
  | .date d => some (.val d)
  | .str s => if s.data.isEmpty then some .null else (L.castDate s).map .val

/-- Cast a string to an identifier: 24 hexadecimal digits in either case, printed in lower
case. -/
def ObjectId.ofString (s : String) : Option ObjectId :=
  if h : isObjectIdHex (lower s) = true then some ⟨lower s, h⟩ else none

/-- Cast to an `ObjectId` field; `none` is a failed cast. -/
def castObjectId : Val → Option (Field ObjectId)
  | .undef => some .undef
  | .null => some .null
  | .str s => (ObjectId.ofString s).map .val
  | .date _ => none

/-- Cast to an array of `ObjectId`; `none` when an element fails to cast. -/
def castObjectIds : List String → Option (List ObjectId)
  | [] => some []
  | s :: rest =>
      match ObjectId.ofString s, castObjectIds rest with
      | some i, some is => some (i :: is)
      | _, _ => none

/-- The value a field takes and whether its cast failed. -/
def castOr {α : Type} (c : Option (Field α)) : Field α × Bool :=
  match c with
  | some f => (f, false)
  | none => (.undef, true)

/-- The schema default, applied to a field that is still unset. -/
def Field.withDefault {α : Type} (d : α) : Field α → Field α
  | .undef => .val d
  | f => f

/-- The update `$set` writes a field the update document defines and keeps one it leaves
unset. -/
def Field.orKeep {α : Type} (new old : Field α) : Field α :=
  match new with
  | .undef => old
  | f => f

/-- The validator `required` on a `String` field: a non-empty string. -/
def requiredStr : Field String → Bool
  | .val s => !s.data.isEmpty
  | _ => false

/-- The validator `required` on a reference or date field. -/
def requiredVal {α : Type} : Field α → Bool
  | .val _ => true
  | _ => false

/-! ## Queries and writes -/

/-- The first document of a list that satisfies a test is replaced. -/
def updateFirst {α : Type} (p : α → Bool) (f : α → α) : List α → List α
  | [] => []
  | a :: as => if p a then f a :: as else a :: updateFirst p f as

/-- Insert before the first element that is not smaller. -/
def insertBy {α : Type} (le : α → α → Bool) (x : α) : List α → List α
  | [] => [x]
  | y :: ys => if le x y then x :: y :: ys else y :: insertBy le x ys

/-- A stable sort. -/
def sortBy {α : Type} (le : α → α → Bool) (l : List α) : List α :=
  l.foldr (insertBy le) []

/-- The ascending order of a string key: a missing or `null` key comes first. -/
def fieldLe : Field String → Field String → Bool
  | .val a, .val b => charsLe a.data b.data
  | .val _, _ => false
  | _, _ => true

/-- The query `Author.findById(id)`. -/
def Author.findById (db : Db) (id : ObjectId) : Option Author :=
  db.authors.find? fun a => decide (a._id = id)

/-- The query `Genre.findById(id)`. -/
def Genre.findById (db : Db) (id : ObjectId) : Option Genre :=
  db.genres.find? fun g => decide (g._id = id)

/-- The query `Book.findById(id)`. -/
def Book.findById (db : Db) (id : ObjectId) : Option Book :=
  db.books.find? fun b => decide (b._id = id)

/-- The query `BookInstance.findById(id)`. -/
def BookInstance.findById (db : Db) (id : ObjectId) : Option BookInstance :=
  db.bookinstances.find? fun b => decide (b._id = id)

/-- The query `Book.find({ author: id })`. -/
def Book.findByAuthor (db : Db) (id : ObjectId) : List Book :=
  db.books.filter fun b => decide (b.author = .val id)

/-- The query `Book.find({ genre: id })`: the array field holds the identifier. -/
def Book.findByGenre (db : Db) (id : ObjectId) : List Book :=
  db.books.filter fun b => decide (id ∈ b.genre)

/-- The query `BookInstance.find({ book: id })`. -/
def BookInstance.findByBook (db : Db) (id : ObjectId) : List BookInstance :=
  db.bookinstances.filter fun b => decide (b.book = .val id)

/-- The projection `"title summary"`. -/
def Book.selectTitleSummary (b : Book) : Book :=
  { _id := b._id, title := b.title, author := .undef, summary := b.summary, isbn := .undef,
    genre := [] }

/-- The projection `"title"`. -/
def Book.selectTitle (b : Book) : Book :=
  { _id := b._id, title := b.title, author := .undef, summary := .undef, isbn := .undef,
    genre := [] }

/-- The query `Author.find().sort({ family_name: 1 })`. -/
def Author.findSorted (db : Db) : List Author :=
  sortBy (fun a b => fieldLe a.family_name b.family_name) db.authors

/-- The query `Genre.find().sort({ name: 1 })`. -/
def Genre.findSorted (db : Db) : List Genre :=
  sortBy (fun a b => fieldLe a.name b.name) db.genres

/-- The query `Genre.findOne({ name }).collation({ locale: "en", strength: 2 })`: the first
Genre whose name equals the given one under the collation. -/
def Genre.findOneByName (L : DateLib) (C : Collation) (db : Db) (name : Val) : Option Genre :=
  match castString L name with
  | .val s => db.genres.find? fun g =>
      match g.name with
      | .val n => C.equal n s
      | _ => false
  | _ => db.genres.find? fun g => !requiredVal g.name

/-- A book with `author` and `genre` populated: a reference to a missing document resolves to
nothing. -/
structure PopulatedBook where
  doc : Book
  author : Option Author
  genre : List Genre
deriving DecidableEq, Repr

/-- The step `.populate("author").populate("genre")`. -/
def Book.populate (db : Db) (b : Book) : PopulatedBook :=
  { doc := b
    author := match b.author with
      | .val i => Author.findById db i
      | _ => none
    genre := b.genre.filterMap (Genre.findById db) }

/-- A book instance with `book` populated. -/
structure PopulatedBookInstance where
  doc : BookInstance
  book : Option Book
deriving DecidableEq, Repr

/-- The step `.populate("book")`. -/
def BookInstance.populate (db : Db) (b : BookInstance) : PopulatedBookInstance :=
  { doc := b
    book := match b.book with
      | .val i => Book.findById db i
      | _ => none }

/-- An error object. -/
inductive JsError where
  | withStatus (message : String) (status : Nat)
  | typeError
  | validationError
  | duplicateKey
  | castError
deriving DecidableEq, Repr

/-- The property `status` of an error: only the errors the handlers build carry one. -/
def JsError.status : JsError → Option Nat
  | .withStatus _ s => some s
  | _ => none

/-- The write `Author.findByIdAndDelete(id)`: the first document with the identifier goes. -/
def Author.findByIdAndDelete (db : Db) (id : ObjectId) : Db :=
  { db with authors := db.authors.eraseP fun a => decide (a._id = id) }

/-- The write `Genre.findByIdAndDelete(id)`. -/
def Genre.findByIdAndDelete (db : Db) (id : ObjectId) : Db :=
  { db with genres := db.genres.eraseP fun g => decide (g._id = id) }

/-- The write `Book.findByIdAndDelete(id)`. -/
def Book.findByIdAndDelete (db : Db) (id : ObjectId) : Db :=
  { db with books := db.books.eraseP fun b => decide (b._id = id) }

/-- The write `BookInstance.findByIdAndDelete(id)`. -/
def BookInstance.findByIdAndDelete (db : Db) (id : ObjectId) : Db :=
  { db with bookinstances := db.bookinstances.eraseP fun b => decide (b._id = id) }

/-- The schema validation of an Author: both names are required. -/
def Author.valid (a : Author) : Bool :=
  requiredStr a.first_name && requiredStr a.family_name

/-- The schema validation of a Genre: the name is required and has 3 to 100 characters. -/
def Genre.valid (g : Genre) : Bool :=
  requiredStr g.name &&
    match g.name with
    | .val s => decide (3 ≤ jsLength s) && decide (jsLength s ≤ 100)
    | _ => true

/-- Modelled from the spec: the schema validation of a Book, whose author reference is
required (models/book.js is not among the sources). -/
def Book.valid (b : Book) : Bool :=
  requiredVal b.author

/-- The schema validation of a BookInstance: book, imprint and status are required and the
status is one of the four listed. -/
def BookInstance.valid (b : BookInstance) : Bool :=
  requiredVal b.book && requiredStr b.imprint && requiredStr b.status &&
    match b.status with
    | .val s => decide (s ∈ ["Available", "Maintenance", "Loaned", "Reserved"])
    | _ => true

/-- The write `author.save()` of a new document: validation, then an insert, which the unique
index on `_id` refuses for an identifier already present. -/
def Author.save (db : Db) (a : Built Author) : Except JsError Db :=
  if a.castFailed || !a.doc.valid then .error .validationError
  else if db.authors.any (fun x => decide (x._id = a.doc._id)) then .error .duplicateKey
  else .ok { db with authors := db.authors ++ [a.doc] }

/-- The write `genre.save()` of a new document. -/
def Genre.save (db : Db) (g : Built Genre) : Except JsError Db :=
  if g.castFailed || !g.doc.valid then .error .validationError
  else if db.genres.any (fun x => decide (x._id = g.doc._id)) then .error .duplicateKey
  else .ok { db with genres := db.genres ++ [g.doc] }

/-- The write `book.save()` of a new document. -/
def Book.save (db : Db) (b : Built Book) : Except JsError Db :=
  if b.castFailed || !b.doc.valid then .error .validationError
  else if db.books.any (fun x => decide (x._id = b.doc._id)) then .error .duplicateKey
  else .ok { db with books := db.books ++ [b.doc] }

/-- The write `bookinstance.save()` of a new document. -/
def BookInstance.save (db : Db) (b : Built BookInstance) : Except JsError Db :=
  if b.castFailed || !b.doc.valid then .error .validationError
  else if db.bookinstances.any (fun x => decide (x._id = b.doc._id)) then .error .duplicateKey
  else .ok { db with bookinstances := db.bookinstances ++ [b.doc] }

/-- The fields an update with the document `u` sets on the stored Author `old`. -/
def Author.merge (old u : Author) : Author :=
  { _id := old._id
    first_name := u.first_name.orKeep old.first_name
    family_name := u.family_name.orKeep old.family_name
    date_of_birth := u.date_of_birth.orKeep old.date_of_birth
    date_of_death := u.date_of_death.orKeep old.date_of_death }

/-- The fields an update sets on a stored Genre. -/
def Genre.merge (old u : Genre) : Genre :=
  { _id := old._id, name := u.name.orKeep old.name }

/-- The fields an update sets on a stored Book: the genre array is always defined. -/
def Book.merge (old u : Book) : Book :=
  { _id := old._id
    title := u.title.orKeep old.title
    author := u.author.orKeep old.author
    summary := u.summary.orKeep old.summary
    isbn := u.isbn.orKeep old.isbn
    genre := u.genre }

/-- The fields an update sets on a stored BookInstance. -/
def BookInstance.merge (old u : BookInstance) : BookInstance :=
  { _id := old._id
    book := u.book.orKeep old.book
    imprint := u.imprint.orKeep old.imprint
    status := u.status.orKeep old.status
    due_back := u.due_back.orKeep old.due_back }

/-- The write `Author.findByIdAndUpdate(id, author)`: without a match nothing is written and
the result is `null`; with one the result is the document as it was before the update. -/
def Author.findByIdAndUpdate (db : Db) (id : ObjectId) (u : Author) : Db × Option Author :=
  match Author.findById db id with
  | none => (db, none)
  | some old =>
      ({ db with authors := updateFirst (fun a => decide (a._id = id)) (·.merge u) db.authors },
        some old)

/-- The write `Genre.findByIdAndUpdate(id, genre, {})`. -/
def Genre.findByIdAndUpdate (db : Db) (id : ObjectId) (u : Genre) : Db × Option Genre :=
  match Genre.findById db id with
  | none => (db, none)
  | some old =>
      ({ db with genres := updateFirst (fun g => decide (g._id = id)) (·.merge u) db.genres },
        some old)

/-- The write `Book.findByIdAndUpdate(id, book, { new: true })`: the result is the document
after the update. -/
def Book.findByIdAndUpdate (db : Db) (id : ObjectId) (u : Book) : Db × Option Book :=
  match Book.findById db id with
  | none => (db, none)
  | some old =>
      ({ db with books := updateFirst (fun b => decide (b._id = id)) (·.merge u) db.books },
        some (old.merge u))

/-- The write `BookInstance.findByIdAndUpdate(id, bookinstance, {})`. -/
def BookInstance.findByIdAndUpdate (db : Db) (id : ObjectId) (u : BookInstance) :
    Db × Option BookInstance :=
  match BookInstance.findById db id with
  | none => (db, none)
  | some old =>
      ({ db with bookinstances :=
            updateFirst (fun b => decide (b._id = id)) (·.merge u) db.bookinstances },
        some old)

/-! ## Responses -/

/-- A value passed to a template. -/
inductive Data where
  | text (s : String)
  | field (f : Field String)
  | count (n : Nat)
  | objectId (i : ObjectId)
  | author (a : Author)
  | authors (l : List Author)
  | genre (g : Genre)
  | genres (l : List Genre)
  | genreChoices (l : List (Genre × Bool))
  | book (b : Book)
  | books (l : List Book)
  | populatedBook (b : PopulatedBook)
  | bookinstance (b : BookInstance)
  | bookinstances (l : List BookInstance)
  | populatedBookInstance (b : PopulatedBookInstance)
  | errors (l : List ValidationError)
deriving DecidableEq, Repr

/-- What a handler does with a request: `res.render(view, locals)`, `res.redirect(url)`,
`next(err)`, or an exception that escapes the handler (`rejected`). -/
inductive Response where
  | render (view : String) (locals : List (String × Data))
  | redirect (url : String)
  | next (err : JsError)
  | rejected (err : JsError)
deriving DecidableEq, Repr

/-! ## authorController.js -/

/-- The body of the Author forms. -/
structure AuthorBody where
  first_name : Option String
  family_name : Option String
  date_of_birth : Option String
  date_of_death : Option String
deriving DecidableEq, Repr

/-- The Author fields of `req.body` after the chains have run. -/
structure AuthorFields where
  first_name : Val
  family_name : Val
  date_of_birth : Val
  date_of_death : Val
deriving DecidableEq, Repr

/-- The constructor `new Author({ first_name, family_name, date_of_birth, date_of_death, _id })`
on the fields of `req.body`. -/
def Author.new (L : DateLib) (id : ObjectId) (f : AuthorFields) : Built Author :=
  let dob := castOr (castDateField L f.date_of_birth)
  let dod := castOr (castDateField L f.date_of_death)
  { doc :=
      { _id := id
        first_name := castString L f.first_name
        family_name := castString L f.family_name
        date_of_birth := dob.1
        date_of_death := dod.1 }
    castFailed := dob.2 || dod.2 }

/-- The handler `author_detail`; `id` is the raw route parameter `req.params.id`. The queries
cast it: for a string that does not cast they throw a `CastError`, which the `catch` passes to
`next`. -/
def author_detail (db : Db) (id : String) : Db × Response :=
  match ObjectId.ofString id with
  | none => (db, .next .castError)
  | some oid =>
      let author := Author.findById db oid
      let allBooksByAuthor := (Book.findByAuthor db oid).map Book.selectTitleSummary
      match author with
      | none => (db, .next (.withStatus "Author not found" 404))
      | some a =>
          (db, .render "author_detail"
            [("title", .text "Author Detail"), ("author", .author a),
              ("author_books", .books allBooksByAuthor)])

/-- The handler `author_create_get`. -/
def author_create_get (db : Db) : Db × Response :=
  (db, .render "author_form" [("title", .text "Create Author")])

/-- The validation chains of `author_create_post`, in order. -/
def author_create_post_chains (L : DateLib) (b : AuthorBody) :
    AuthorFields × List ValidationError :=
  let fn := runChain L "first_name" false
    [.trim, .isLength 1 "First name must be specified.", .escape,
      .isAlphanumeric "First name has non-alphanumeric characters."] (.ofBody b.first_name)
  let ln := runChain L "family_name" false
    [.trim, .isLength 1 "Family name must be specified.", .escape,
      .isAlphanumeric "Family name has non-alphanumeric characters."] (.ofBody b.family_name)
  let dob := runChain L "date_of_birth" true
    [.isISO8601 "Invalid date of birth", .toDate] (.ofBody b.date_of_birth)
  let dod := runChain L "date_of_death" true
    [.isISO8601 "Invalid date of death", .toDate] (.ofBody b.date_of_death)
  ({ first_name := fn.1, family_name := ln.1, date_of_birth := dob.1, date_of_death := dod.1 },
    fn.2 ++ ln.2 ++ dob.2 ++ dod.2)

/-- The handler `author_create_post`; `newId` is the identifier the constructor generates.
The handler has no `try`/`catch`, so a failing `save()` escapes it. -/
def author_create_post (L : DateLib) (db : Db) (newId : ObjectId) (body : AuthorBody) :
    Db × Response :=
  let r := author_create_post_chains L body
  let errors := r.2
  let author := Author.new L newId r.1
  if !errors.isEmpty then
    (db, .render "author_form"
      [("title", .text "Create Author"), ("author", .author author.doc),
        ("errors", .errors errors)])
  else
    match Author.save db author with
    | .error e => (db, .rejected e)
    | .ok db2 => (db2, .redirect author.doc.url)

/-- The handler `author_delete_get`. -/
def author_delete_get (db : Db) (id : ObjectId) : Db × Response :=
  let author := Author.findById db id
  let authors_books := Book.findByAuthor db id
  match author with
  | none => (db, .redirect "/catalog/authors")
  | some a =>
      (db, .render "author_delete"
        [("title", .text "Delete Author"), ("author", .author a),
          ("author_books", .books authors_books)])

/-- The handler `author_delete_post`; `authorid` is `req.body.authorid`. -/
def author_delete_post (db : Db) (authorid : ObjectId) : Db × Response :=
  let author := Author.findById db authorid
  let authors_books := Book.findByAuthor db authorid
  match author with
  | none => (db, .redirect "/catalog/authors")
  | some a =>
      if authors_books.length > 0 then
        (db, .render "author_delete"
          [("title", .text "Delete Author"), ("author", .author a),
            ("author_books", .books authors_books)])
      else
        (Author.findByIdAndDelete db authorid, .redirect "/catalog/authors")

/-- The handler `author_update_get`: the error thrown for a missing record is caught and
passed to `next`. -/
def author_update_get (db : Db) (id : ObjectId) : Db × Response :=
  match Author.findById db id with
  | none => (db, .next (.withStatus "Автор не найден!" 404))
  | some a =>
      (db, .render "author_form" [("title", .text "Обновить автора"), ("author", .author a)])

/-- The validation chains of `author_update_post`, in order: four validating chains, then four
sanitizing ones on the same fields. -/
def author_update_post_chains (L : DateLib) (b : AuthorBody) :
    AuthorFields × List ValidationError :=
  let fn := runChain L "first_name" false
    [.isLength 1 "Имя must not be empty.", .trim] (.ofBody b.first_name)
  let ln := runChain L "family_name" false
    [.isLength 1 "Фамилия must not be empty.", .trim] (.ofBody b.family_name)
  let dob := runChain L "date_of_birth" true
    [.isISO8601 "Дата рождения must not be empty.", .toDate] (.ofBody b.date_of_birth)
  let dod := runChain L "date_of_death" true
    [.isISO8601 "ISBN must not be empty", .toDate] (.ofBody b.date_of_death)
  let fn2 := runChain L "first_name" false [.trim, .escape] fn.1
  let ln2 := runChain L "family_name" false [.trim, .escape] ln.1
  let dob2 := runChain L "date_of_birth" false [.trim, .escape] dob.1
  let dod2 := runChain L "date_of_death" false [.trim, .escape] dod.1
  ({ first_name := fn2.1, family_name := ln2.1, date_of_birth := dob2.1,
      date_of_death := dod2.1 },
    fn.2 ++ ln.2 ++ dob.2 ++ dod.2 ++ fn2.2 ++ ln2.2 ++ dob2.2 ++ dod2.2)

/-- The handler `author_update_post`; `id` is `req.params.id`. Reading `url` of the `null`
that an update without a match returns throws a `TypeError`, which the `catch` passes to
`next`. -/
def author_update_post (L : DateLib) (db : Db) (id : ObjectId) (body : AuthorBody) :
    Db × Response :=
  let r := author_update_post_chains L body
  let errors := r.2
  let author := Author.new L id r.1
  if !errors.isEmpty then
    (db, .render "author_form"
      [("title", .text "Update Author"), ("author", .author author.doc),
        ("errors", .errors errors)])
  else
    match Author.findByIdAndUpdate db id author.doc with
    | (db2, none) => (db2, .next .typeError)
    | (db2, some updatedAuthor) => (db2, .redirect updatedAuthor.url)

/-! ## genreController.js -/

/-- The constructor `new Genre({ name, _id })`. -/
def Genre.new (L : DateLib) (id : ObjectId) (name : Val) : Built Genre :=
  { doc := { _id := id, name := castString L name }, castFailed := false }

/-- The handler `genre_detail`; `id` is the raw route parameter `req.params.id`. For a string
that does not cast the query throws a `CastError`, which the `catch` passes to `next`. -/
def genre_detail (db : Db) (id : String) : Db × Response :=
  match ObjectId.ofString id with
  | none => (db, .next .castError)
  | some oid =>
      match Genre.findById db oid with
      | none => (db, .next (.withStatus "Жанр не найден" 404))
      | some g =>
          let genre_books := Book.findByGenre db oid
          (db, .render "genre_detail"
            [("title", .text "Genre Detail"), ("genre", .genre g),
              ("genre_books", .books genre_books)])

/-- The handler `genre_create_get`. -/
def genre_create_get (db : Db) : Db × Response :=
  (db, .render "genre_form" [("title", .text "Создать новый жанр")])

/-- The validation chain of `genre_create_post`. -/
def genre_create_post_chains (L : DateLib) (name : Option String) :
    Val × List ValidationError :=
  runChain L "name" false
    [.trim, .isLength 3 "Название жанра должно содержать не менее 3 символов", .escape]
    (.ofBody name)

/-- The handler `genre_create_post`; `newId` is the identifier the constructor generates and
`C` the collation of the lookup. -/
def genre_create_post (L : DateLib) (C : Collation) (db : Db) (newId : ObjectId)
    (name : Option String) : Db × Response :=
  let r := genre_create_post_chains L name
  let errors := r.2
  let genre := Genre.new L newId r.1
  if !errors.isEmpty then
    (db, .render "genre_form"
      [("title", .text "Создать жанр"), ("genre", .genre genre.doc), ("errors", .errors errors)])
  else
    match Genre.findOneByName L C db r.1 with
    | some genreExists => (db, .redirect genreExists.url)
    | none =>
        match Genre.save db genre with
        | .error e => (db, .next e)
        | .ok db2 => (db2, .redirect genre.doc.url)

/-- The handler `genre_delete_get`. -/
def genre_delete_get (db : Db) (id : ObjectId) : Db × Response :=
  let genre := Genre.findById db id
  let books := Book.findByGenre db id
  match genre with
  | none => (db, .redirect "/catalog/genres")
  | some g =>
      (db, .render "genre_delete"
        [("title", .text "Удалить жанр"), ("genre", .genre g), ("books", .books books)])

/-- The handler `genre_delete_post`; `genreid` is `req.body.genreid`. -/
def genre_delete_post (db : Db) (genreid : ObjectId) : Db × Response :=
  let genre := Genre.findById db genreid
  let genre_books := Book.findByGenre db genreid
  match genre with
  | none => (db, .redirect "/catalog/genres")
  | some g =>
      if genre_books.length > 0 then
        (db, .render "genre_delete"
          [("title", .text "Удалить жанр"), ("genre", .genre g),
            ("genre_books", .books genre_books)])
      else
        (Genre.findByIdAndDelete db genreid, .redirect "/catalog/books")

/-- The handler `genre_update_get`. -/
def genre_update_get (db : Db) (id : ObjectId) : Db × Response :=
  match Genre.findById db id with
  | none => (db, .next (.withStatus "Жанр не найден" 404))
  | some g => (db, .render "genre_form" [("title", .text "Update жанр"), ("genre", .genre g)])

/-- The validation chain of `genre_update_post`. -/
def genre_update_post_chains (L : DateLib) (name : Option String) :
    Val × List ValidationError :=
  runChain L "name" false
    [.trim, .isLength 3 "Genre name must contain at least 3 characters", .escape] (.ofBody name)

/-- The handler `genre_update_post`; `id` is `req.params.id`. -/
def genre_update_post (L : DateLib) (db : Db) (id : ObjectId) (name : Option String) :
    Db × Response :=
  let r := genre_update_post_chains L name
  let errors := r.2
  let genre := Genre.new L id r.1
  if !errors.isEmpty then
    (db, .render "genre_form"
      [("title", .text "Update Genre"), ("genre", .genre genre.doc), ("errors", .errors errors)])
  else
    match Genre.findByIdAndUpdate db id genre.doc with
    | (db2, none) => (db2, .next .typeError)
    | (db2, some updatedGenre) => (db2, .redirect updatedGenre.url)

/-! ## bookController.js -/

/-- The field `genre` of the Book forms: no box ticked, one, or several. -/
inductive GenreInput where
  | undef
  | one (s : String)
  | many (l : List String)
deriving DecidableEq, Repr

/-- The body of the Book forms. -/
structure BookBody where
  title : Option String
  author : Option String
  summary : Option String
  isbn : Option String
  genre : GenreInput
deriving DecidableEq, Repr

/-- The Book fields of `req.body` after the chains have run. -/
structure BookFields where
  title : Val
  author : Val
  summary : Val
  isbn : Val
  genre : GenreInput
deriving DecidableEq, Repr

/-- A sanitizer on the wildcard path `genre.*`: it runs on every element of the array. -/
def GenreInput.mapElems (f : String → String) : GenreInput → GenreInput
  | .many l => .many (l.map f)
  | g => g

/-- The constructor `new Book({ title, author, summary, isbn, genre, _id })`. -/
def Book.new (L : DateLib) (id : ObjectId) (f : BookFields) : Built Book :=
  let author := castOr (castObjectId f.author)
  let genre := match f.genre with
    | .undef => some []
    | .one s => castObjectIds [s]
    | .many l => castObjectIds l
  { doc :=
      { _id := id
        title := castString L f.title
        author := author.1
        summary := castString L f.summary
        isbn := castString L f.isbn
        genre := genre.getD [] }
    castFailed := author.2 || genre.isNone }

/-- The handler `index`: five counts. -/
def index (db : Db) : Db × Response :=
  let numBooks := db.books.length
  let numBookInstances := db.bookinstances.length
  let numAvailableBookInstances :=
    (db.bookinstances.filter fun b => decide (b.status = .val "Available")).length
  let numAuthors := db.authors.length
  let numGenres := db.genres.length
  (db, .render "index"
    [("title", .text "Local Library Home"), ("book_count", .count numBooks),
      ("book_instance_count", .count numBookInstances),
      ("book_instance_available_count", .count numAvailableBookInstances),
      ("author_count", .count numAuthors), ("genre_count", .count numGenres)])

/-- The handler `book_detail`; `id` is the raw route parameter `req.params.id`. The handler
has no `try`/`catch`: for a string that does not cast, the `CastError` of the queries escapes
it and `next` is not called. -/
def book_detail (db : Db) (id : String) : Db × Response :=
  match ObjectId.ofString id with
  | none => (db, .rejected .castError)
  | some oid =>
      let book := (Book.findById db oid).map (Book.populate db)
      let bookInstances := BookInstance.findByBook db oid
      match book with
      | none => (db, .next (.withStatus "Book not found" 404))
      | some b =>
          (db, .render "book_detail"
            [("title", .field b.doc.title),
              ("book", .populatedBook b), ("book_instances", .bookinstances bookInstances)])

/-- The handler `book_create_get`. -/
def book_create_get (db : Db) : Db × Response :=
  (db, .render "book_form"
    [("title", .text "Create Book"), ("authors", .authors (Author.findSorted db)),
      ("genres", .genres (Genre.findSorted db))])

/-- The first middleware of `book_create_post`: convert the genre to an array. An array stays,
a missing field becomes the empty array and any other value the array that holds it. -/
def book_create_post_genre (b : BookBody) : BookBody :=
  match b.genre with
  | .many _ => b
  | .undef => { b with genre := .many [] }
  | .one s => { b with genre := .many [s] }

/-- The validation chains of `book_create_post`, after the first middleware. -/
def book_create_post_chains (L : DateLib) (b : BookBody) : BookFields × List ValidationError :=
  let title := runChain L "title" false
    [.trim, .isLength 1 "Title must not be empty.", .escape] (.ofBody b.title)
  let author := runChain L "author" false
    [.trim, .isLength 1 "Author must not be empty.", .escape] (.ofBody b.author)
  let summary := runChain L "summary" false
    [.trim, .isLength 1 "Summary must not be empty.", .escape] (.ofBody b.summary)
  let isbn := runChain L "isbn" false
    [.trim, .isLength 1 "ISBN must not be empty", .escape] (.ofBody b.isbn)
  ({ title := title.1, author := author.1, summary := summary.1, isbn := isbn.1,
      genre := b.genre.mapElems escape },
    title.2 ++ author.2 ++ summary.2 ++ isbn.2)

/-- The handler `book_create_post`; `newId` is the identifier the constructor generates. -/
def book_create_post (L : DateLib) (db : Db) (newId : ObjectId) (body : BookBody) :
    Db × Response :=
  let r := book_create_post_chains L (book_create_post_genre body)
  let errors := r.2
  let book := Book.new L newId r.1
  if !errors.isEmpty then
    let allAuthors := Author.findSorted db
    let allGenres := Genre.findSorted db
    (db, .render "book_form"
      [("title", .text "Create Book"), ("authors", .authors allAuthors),
        ("genres", .genreChoices (allGenres.map fun g => (g, decide (g._id ∈ book.doc.genre)))),
        ("book", .book book.doc), ("errors", .errors errors)])
  else
    match Book.save db book with
    | .error e => (db, .rejected e)
    | .ok db2 => (db2, .redirect book.doc.url)

/-- The handler `book_delete_get`. -/
def book_delete_get (db : Db) (id : ObjectId) : Db × Response :=
  let book := Book.findById db id
  let bookInstances := BookInstance.findByBook db id
  match book with
  | none => (db, .redirect "/catalog/books")
  | some b =>
      (db, .render "book_delete"
        [("title", .text "Delete Book"), ("book", .book b),
          ("bookInstances", .bookinstances bookInstances)])

/-- The handler `book_delete_post`; `bookid` is `req.body.bookid`. -/
def book_delete_post (db : Db) (bookid : ObjectId) : Db × Response :=
  let book := Book.findById db bookid
  let book_instances := BookInstance.findByBook db bookid
  match book with
  | none => (db, .redirect "/catalog/books")
  | some b =>
      if book_instances.length > 0 then
        (db, .render "book_delete"
          [("title", .text "Удалить книгу"), ("book", .book b),
            ("book_instances", .bookinstances book_instances)])
      else
        (Book.findByIdAndDelete db bookid, .redirect "/catalog/books")

/-- The handler `book_update_get`: a Genre is marked when its identifier prints like that of
one of the populated genres of the book. -/
def book_update_get (db : Db) (id : ObjectId) : Db × Response :=
  let book := (Book.findById db id).map (Book.populate db)
  let authors := db.authors
  let genres := db.genres
  match book with
  | none => (db, .next (.withStatus "Book not found" 404))
  | some b =>
      (db, .render "book_form"
        [("title", .text "Update Book"), ("authors", .authors authors),
          ("genres", .genreChoices (genres.map fun g =>
            (g, b.genre.any fun bookGenre => decide (g._id.hex = bookGenre._id.hex)))),
          ("book", .populatedBook b)])

/-- The first middleware of `book_update_post`: convert the genre to an array, with
`instanceof Array` as the test. -/
def book_update_post_genre (b : BookBody) : BookBody :=
  match b.genre with
  | .many _ => b
  | .undef => { b with genre := .many [] }
  | .one s => { b with genre := .many [s] }

/-- The validation chains of `book_update_post`, after the first middleware: four validating
chains, then five sanitizing ones. -/
def book_update_post_chains (L : DateLib) (b : BookBody) : BookFields × List ValidationError :=
  let title := runChain L "title" false [.isLength 1 "Title must not be empty.", .trim]
    (.ofBody b.title)
  let author := runChain L "author" false [.isLength 1 "Author must not be empty.", .trim]
    (.ofBody b.author)
  let summary := runChain L "summary" false [.isLength 1 "Summary must not be empty.", .trim]
    (.ofBody b.summary)
  let isbn := runChain L "isbn" false [.isLength 1 "ISBN must not be empty", .trim]
    (.ofBody b.isbn)
  let title2 := runChain L "title" false [.trim, .escape] title.1
  let author2 := runChain L "author" false [.trim, .escape] author.1
  let summary2 := runChain L "summary" false [.trim, .escape] summary.1
  let isbn2 := runChain L "isbn" false [.trim, .escape] isbn.1
  ({ title := title2.1, author := author2.1, summary := summary2.1, isbn := isbn2.1,
      genre := b.genre.mapElems fun s => escape (trim s) },
    title.2 ++ author.2 ++ summary.2 ++ isbn.2 ++ title2.2 ++ author2.2 ++ summary2.2 ++ isbn2.2)

/-- The handler `book_update_post`; `id` is `req.params.id`. -/
def book_update_post (L : DateLib) (db : Db) (id : ObjectId) (body : BookBody) :
    Db × Response :=
  let r := book_update_post_chains L (book_update_post_genre body)
  let errors := r.2
  let book := Book.new L id r.1
  if !errors.isEmpty then
    let authors := db.authors
    let genres := db.genres
    (db, .render "book_form"
      [("title", .text "Update Book"), ("authors", .authors authors),
        ("genres", .genreChoices (genres.map fun g => (g, decide (g._id ∈ book.doc.genre)))),
        ("book", .book book.doc), ("errors", .errors errors)])
  else
    match Book.findByIdAndUpdate db id book.doc with
    | (db2, none) => (db2, .next .typeError)
    | (db2, some updatedBook) => (db2, .redirect updatedBook.url)

/-! ## bookinstanceController.js -/

/-- The body of the BookInstance forms. -/
structure BookInstanceBody where
  book : Option String
  imprint : Option String
  status : Option String
  due_back : Option String
deriving DecidableEq, Repr

/-- The BookInstance fields of `req.body` after the chains have run. -/
structure BookInstanceFields where
  book : Val
  imprint : Val
  status : Val
  due_back : Val
deriving DecidableEq, Repr

/-- The constructor `new BookInstance({ book, imprint, status, due_back, _id })`; `now` is the
value of `Date.now` for the default of `due_back`. -/
def BookInstance.new (L : DateLib) (now : JsDate) (id : ObjectId) (f : BookInstanceFields) :
    Built BookInstance :=
  let book := castOr (castObjectId f.book)
  let due := castOr (castDateField L f.due_back)
  { doc :=
      { _id := id
        book := book.1
        imprint := castString L f.imprint
        status := (castString L f.status).withDefault "Maintenance"
        due_back := due.1.withDefault now }
    castFailed := book.2 || due.2 }

/-- The read `x._id` of a reference field: it throws on a missing or `null` field. -/
def refId : Field ObjectId → Except JsError ObjectId
  | .val i => .ok i
  | _ => .error .typeError

/-- The handler `bookinstance_detail`; `id` is the raw route parameter `req.params.id`. For a
string that does not cast the query throws a `CastError`, which the `catch` passes to
`next`. -/
def bookinstance_detail (db : Db) (id : String) : Db × Response :=
  match ObjectId.ofString id with
  | none => (db, .next .castError)
  | some oid =>
      match (BookInstance.findById db oid).map (BookInstance.populate db) with
      | none => (db, .next (.withStatus "Book copy not found" 404))
      | some b =>
          (db, .render "bookinstance_detail"
            [("title", .text "Book:"), ("bookinstance", .populatedBookInstance b)])

/-- The handler `bookinstance_create_get`. -/
def bookinstance_create_get (db : Db) : Db × Response :=
  (db, .render "bookinstance_form"
    [("title", .text "Create BookInstance"), ("book_list", .books (db.books.map Book.selectTitle))])

/-- The validation chains of `bookinstance_create_post`, in order: three validating chains,
then four sanitizing ones. -/
def bookinstance_create_post_chains (L : DateLib) (b : BookInstanceBody) :
    BookInstanceFields × List ValidationError :=
  let book := runChain L "book" false [.isLength 1 "Book must be specified", .trim]
    (.ofBody b.book)
  let imprint := runChain L "imprint" false [.isLength 1 "Imprint must be specified", .trim]
    (.ofBody b.imprint)
  let due := runChain L "due_back" true [.isISO8601 "Invalid date"] (.ofBody b.due_back)
  let book2 := runChain L "book" false [.escape] book.1
  let imprint2 := runChain L "imprint" false [.escape] imprint.1
  let status := runChain L "status" false [.trim, .escape] (.ofBody b.status)
  let due2 := runChain L "due_back" false [.toDate] due.1
  ({ book := book2.1, imprint := imprint2.1, status := status.1, due_back := due2.1 },
    book.2 ++ imprint.2 ++ due.2 ++ book2.2 ++ imprint2.2 ++ status.2 ++ due2.2)

/-- The handler `bookinstance_create_post`. In the branch of the validation errors the locals
read `bookinstance.book._id` inside the `try`, so a book field that did not cast throws there
and the `catch` passes the error to `next`. -/
def bookinstance_create_post (L : DateLib) (now : JsDate) (db : Db) (newId : ObjectId)
    (body : BookInstanceBody) : Db × Response :=
  let r := bookinstance_create_post_chains L body
  let errors := r.2
  let bookinstance := BookInstance.new L now newId r.1
  if !errors.isEmpty then
    let books := db.books.map Book.selectTitle
    match refId bookinstance.doc.book with
    | .error e => (db, .next e)
    | .ok selected =>
        (db, .render "bookinstance_form"
          [("title", .text "Create BookInstance"), ("book_list", .books books),
            ("selected_book", .objectId selected), ("errors", .errors errors),
            ("bookinstance", .bookinstance bookinstance.doc)])
  else
    match BookInstance.save db bookinstance with
    | .error e => (db, .next e)
    | .ok db2 => (db2, .redirect bookinstance.doc.url)

/-- The handler `bookinstance_delete_get`. -/
def bookinstance_delete_get (db : Db) (id : ObjectId) : Db × Response :=
  match BookInstance.findById db id with
  | none => (db, .redirect "/catalog/bookinstances")
  | some b =>
      (db, .render "bookinstance_delete"
        [("title", .text "Удалить экземпляр книги"), ("bookinstance", .bookinstance b)])

/-- The handler `bookinstance_delete_post`; `bookinstanceid` is `req.body.bookinstanceid`. -/
def bookinstance_delete_post (db : Db) (bookinstanceid : ObjectId) : Db × Response :=
  match BookInstance.findById db bookinstanceid with
  | none => (db, .redirect "/catalog/bookinstances")
  | some _ =>
      (BookInstance.findByIdAndDelete db bookinstanceid, .redirect "/catalog/bookinstances")

/-- The handler `bookinstance_update_get`: the locals read `bookinstance.book._id` of the
populated book, which throws when the book is missing. -/
def bookinstance_update_get (db : Db) (id : ObjectId) : Db × Response :=
  let bookinstance := (BookInstance.findById db id).map (BookInstance.populate db)
  let books := db.books
  match bookinstance with
  | none => (db, .next (.withStatus "Экземпляр книги не найден" 404))
  | some b =>
      match b.book with
      | none => (db, .next .typeError)
      | some bk =>
          (db, .render "bookinstance_form"
            [("title", .text "Update экземпляр книги"), ("book_list", .books books),
              ("selected_book", .objectId bk._id), ("bookinstance", .populatedBookInstance b)])

/-- The validation chains of `bookinstance_update_post`, in order. -/
def bookinstance_update_post_chains (L : DateLib) (b : BookInstanceBody) :
    BookInstanceFields × List ValidationError :=
  let book := runChain L "book" false [.trim, .isLength 1 "Book must be specified", .escape]
    (.ofBody b.book)
  let imprint := runChain L "imprint" false
    [.trim, .isLength 1 "Imprint must be specified", .escape] (.ofBody b.imprint)
  let status := runChain L "status" false [.escape] (.ofBody b.status)
  let due := runChain L "due_back" true [.isISO8601 "Invalid date", .toDate] (.ofBody b.due_back)
  ({ book := book.1, imprint := imprint.1, status := status.1, due_back := due.1 },
    book.2 ++ imprint.2 ++ status.2 ++ due.2)

/-- The handler `bookinstance_update_post`; `id` is `req.params.id`. -/
def bookinstance_update_post (L : DateLib) (now : JsDate) (db : Db) (id : ObjectId)
    (body : BookInstanceBody) : Db × Response :=
  let r := bookinstance_update_post_chains L body
  let errors := r.2
  let bookinstance := BookInstance.new L now id r.1
  if !errors.isEmpty then
    let allBooks := db.books.map Book.selectTitle
    match refId bookinstance.doc.book with
    | .error e => (db, .next e)
    | .ok selected =>
        (db, .render "bookinstance_form"
          [("title", .text "Update экземпляр книги"), ("book_list", .books allBooks),
            ("selected_book", .objectId selected), ("bookinstance", .bookinstance bookinstance.doc),
            ("errors", .errors errors)])
  else
    match BookInstance.findByIdAndUpdate db id bookinstance.doc with
    | (db2, none) => (db2, .next .typeError)
    | (db2, some updatedBookinstance) => (db2, .redirect updatedBookinstance.url)

/-! ## The four entities side by side -/

/-- The entities of the catalog. -/
inductive Entity where
  | author
  | genre
  | book
  | bookinstance
deriving DecidableEq, Repr

/-- Whether a record of the entity with the identifier is stored. -/
def Entity.stored (e : Entity) (db : Db) (id : ObjectId) : Bool :=
  match e with
  | .author => (Author.findById db id).isSome
  | .genre => (Genre.findById db id).isSome
  | .book => (Book.findById db id).isSome
  | .bookinstance => (BookInstance.findById db id).isSome

/-- The number of dependents of a record: the Books of an Author or of a Genre, the
BookInstances of a Book; a BookInstance has none. -/
def Entity.dependents (e : Entity) (db : Db) (id : ObjectId) : Nat :=
  match e with
  | .author => (Book.findByAuthor db id).length
  | .genre => (Book.findByGenre db id).length
  | .book => (BookInstance.findByBook db id).length
  | .bookinstance => 0

/-- The delete POST handler of the entity. -/
def Entity.delete_post (e : Entity) (db : Db) (id : ObjectId) : Db × Response :=
  match e with
  | .author => author_delete_post db id
  | .genre => genre_delete_post db id
  | .book => book_delete_post db id
  | .bookinstance => bookinstance_delete_post db id

/-- The detail handler of the entity on a raw route parameter. -/
def Entity.detailAt (e : Entity) (db : Db) (param : String) : Db × Response :=
  match e with
  | .author => author_detail db param
  | .genre => genre_detail db param
  | .book => book_detail db param
  | .bookinstance => bookinstance_detail db param

/-- The detail handler of the entity, called with an identifier as the route parameter. -/
def Entity.detail (e : Entity) (db : Db) (id : ObjectId) : Db × Response :=
  e.detailAt db id.hex

/-- The update GET handler of the entity. -/
def Entity.update_get (e : Entity) (db : Db) (id : ObjectId) : Db × Response :=
  match e with
  | .author => author_update_get db id
  | .genre => genre_update_get db id
  | .book => book_update_get db id
  | .bookinstance => bookinstance_update_get db id

/-- The delete-confirmation view of the entity. -/
def Entity.deleteView : Entity → String
  | .author => "author_delete"
  | .genre => "genre_delete"
  | .book => "book_delete"
  | .bookinstance => "bookinstance_delete"

/-- The detail view of the entity. -/
def Entity.detailView : Entity → String
  | .author => "author_detail"
  | .genre => "genre_detail"
  | .book => "book_detail"
  | .bookinstance => "bookinstance_detail"

/-- The URL of the list view of the entity. -/
def Entity.listUrl : Entity → String
  | .author => "/catalog/authors"
  | .genre => "/catalog/genres"
  | .book => "/catalog/books"
  | .bookinstance => "/catalog/bookinstances"

/-- The store without the records of the entity that carry the identifier. -/
def Db.without (db : Db) (e : Entity) (id : ObjectId) : Db :=
  match e with
  | .author => { db with authors := db.authors.filter fun a => decide (a._id ≠ id) }
  | .genre => { db with genres := db.genres.filter fun g => decide (g._id ≠ id) }
  | .book => { db with books := db.books.filter fun b => decide (b._id ≠ id) }
  | .bookinstance =>
      { db with bookinstances := db.bookinstances.filter fun b => decide (b._id ≠ id) }

/-- Whether a Genre is named "Fiction" under the collation. -/
def isFiction (C : Collation) (g : Genre) : Bool :=
  match g.name with
  | .val n => C.equal n "Fiction"
  | _ => false

/-- The submitted genre values, as a list. -/
def GenreInput.toList : GenreInput → List String
  | .undef => []
  | .one s => [s]
  | .many l => l

/-- A Book view-model carries the submitted values of a body: its title, summary and isbn are
the submitted strings, trimmed and escaped; its author is the reference the sanitized author
string denotes and its genre the references the sanitized genre strings denote, whenever these
are well-formed. -/
def Book.Carries (genreSanitizer : String → String) (body : BookBody) (book : Book) : Prop :=
  book.title = .val (escape (trim (body.title.getD ""))) ∧
    book.summary = .val (escape (trim (body.summary.getD ""))) ∧
    book.isbn = .val (escape (trim (body.isbn.getD ""))) ∧
    (∀ i, ObjectId.ofString (escape (trim (body.author.getD ""))) = some i →
      book.author = .val i) ∧
    (∀ ids, castObjectIds (body.genre.toList.map genreSanitizer) = some ids → book.genre = ids)

/-- A Book view-model is the one built from a body: its title, summary and isbn are the
submitted strings, trimmed and escaped; its author is the identifier the sanitized author
string casts to, and is unset when the string does not cast; its genre is the identifiers the
sanitized genre strings cast to, and is empty when one of them does not cast. -/
def Book.CarriesCast (genreSanitizer : String → String) (body : BookBody) (book : Book) :
    Prop :=
  book.title = .val (escape (trim (body.title.getD ""))) ∧
    book.summary = .val (escape (trim (body.summary.getD ""))) ∧
    book.isbn = .val (escape (trim (body.isbn.getD ""))) ∧
    book.author =
      (match ObjectId.ofString (escape (trim (body.author.getD ""))) with
        | some i => .val i
        | none => .undef) ∧
    book.genre = (castObjectIds (body.genre.toList.map genreSanitizer)).getD []

/-- Whether the genre field is an array. -/
def GenreInput.isArray : GenreInput → Bool
  | .many _ => true
  | _ => false

/-- The identifiers of the records of an entity, in the order of the collection. -/
def Entity.ids (e : Entity) (db : Db) : List ObjectId :=
  match e with
  | .author => db.authors.map (·._id)
  | .genre => db.genres.map (·._id)
  | .book => db.books.map (·._id)
  | .bookinstance => db.bookinstances.map (·._id)

/-- The frame of an update of the record `id` of an entity: the collection holds the same
identifiers in the same order, and outside the records with that identifier the two stores are
the same (every other collection, and every other record of the collection). -/
def Db.UpdatedAt (db : Db) (e : Entity) (id : ObjectId) (db2 : Db) : Prop :=
  e.ids db2 = e.ids db ∧ db2.without e id = db.without e id

/-- The submitted date string `s` reads as the date `d` in the Author update: it is not empty,
`toDate()` parses it to `d`, and the ISO form of `d`, which the second chain trims and escapes,
is not empty and casts back to `d`. -/
def DateLib.RoundTrips (L : DateLib) (s : String) (d : JsDate) : Prop :=
  s.data.isEmpty = false ∧ L.toDate s = some d ∧
    (escape (trim (L.toISOString d))).data.isEmpty = false ∧
    L.castDate (escape (trim (L.toISOString d))) = some d

/-- An Author record carries the submitted values of a body: its names are the submitted
strings, trimmed and escaped; a date submitted empty or not at all is `null`, and a date string
that reads as a date is that date. -/
def Author.Carries (L : DateLib) (body : AuthorBody) (a : Author) : Prop :=
  a.first_name = .val (escape (trim (body.first_name.getD ""))) ∧
    a.family_name = .val (escape (trim (body.family_name.getD ""))) ∧
    (body.date_of_birth.getD "" = "" → a.date_of_birth = .null) ∧
    (∀ d, L.RoundTrips (body.date_of_birth.getD "") d → a.date_of_birth = .val d) ∧
    (body.date_of_death.getD "" = "" → a.date_of_death = .null) ∧
    (∀ d, L.RoundTrips (body.date_of_death.getD "") d → a.date_of_death = .val d)

/-- A BookInstance record carries the submitted values of a body: imprint and status are the
sanitized strings, the book is the reference the sanitized string denotes when it is
well-formed, and a due date that `toDate()` parses is that date (`null` when submitted empty). -/
def BookInstance.Carries (L : DateLib) (body : BookInstanceBody) (b : BookInstance) : Prop :=
  b.imprint = .val (escape (trim (body.imprint.getD ""))) ∧
    b.status = .val (escape (body.status.getD "")) ∧
    (∀ i, ObjectId.ofString (escape (trim (body.book.getD ""))) = some i → b.book = .val i) ∧
    (body.due_back = some "" → b.due_back = .null) ∧
    (∀ s d, body.due_back = some s → s.data.isEmpty = false → L.toDate s = some d →
      b.due_back = .val d)

/-! ## moment and the date virtuals of the Author -/

/-- What `moment` reads besides its argument: the wall-clock time of the call and the offset
of the local time zone from UTC, in minutes, at a given instant. -/
structure Clock where
  now : JsDate
  utcOffset : JsDate → Int

/-- The year, month and day of the proleptic Gregorian calendar for a count of days since
1 January 1970. -/
def civilFromDays (days : Int) : Int × Int × Int :=
  let z := days + 719468
  let era := z / 146097
  let doe := z - era * 146097
  let yoe := (doe - doe / 1460 + doe / 36524 - doe / 146096) / 365
  let doy := doe - (365 * yoe + yoe / 4 - yoe / 100)
  let mp := (5 * doy + 2) / 153
  let d := doy - (153 * mp + 2) / 5 + 1
  let m := if mp < 10 then mp + 3 else mp - 9
  let y := yoe + era * 400 + (if m ≤ 2 then 1 else 0)
  (y, m, d)

/-- A number padded with zeros to a width, with its sign when negative. -/
def zeroFill (n : Int) (width : Nat) : String :=
  let digits := Nat.toDigits 10 n.natAbs
  ⟨(if n < 0 then ['-'] else []) ++ List.replicate (width - digits.length) '0' ++ digits⟩

/-- The format `DD-MM-YYYY` of a date in local time. -/
def formatDDMMYYYY (c : Clock) (d : JsDate) : String :=
  let ymd := civilFromDays ((d.time + c.utcOffset d * 60000) / 86400000)
  zeroFill ymd.2.2 2 ++ "-" ++ zeroFill ymd.2.1 2 ++ "-" ++ zeroFill ymd.1 4

/-- The call `moment(x).format("DD-MM-YYYY")` on a date field: `moment(undefined)` is the
current time, `moment(null)` is an invalid moment, which formats as `Invalid date`. -/
def momentFormat (c : Clock) : Field JsDate → String
  | .undef => formatDDMMYYYY c c.now
  | .null => "Invalid date"
  | .val d => formatDDMMYYYY c d

/-- The virtual `date_of_birth_formatted`: the empty string when the date is missing. -/
def Author.date_of_birth_formatted (c : Clock) (a : Author) : String :=
  match a.date_of_birth with
  | .val d => momentFormat c (.val d)
  | _ => ""

/-- The virtual `lifespan`: both dates formatted, without a test for a missing date. -/
def Author.lifespan (c : Clock) (a : Author) : String :=
  let date_of_birth_formated := momentFormat c a.date_of_birth
  let date_of_death_formated := momentFormat c a.date_of_death
  " " ++ date_of_birth_formated ++ " - " ++ date_of_death_formated

/-! ## Sample data for closed examples -/

/-- The identifier of the sample Author. -/
def authorId : ObjectId := ⟨"a00000000000000000000001", by decide⟩

/-- The identifier of the sample Genre. -/
def genreId : ObjectId := ⟨"e00000000000000000000001", by decide⟩

/-- The identifier of the sample Book. -/
def bookId : ObjectId := ⟨"b00000000000000000000001", by decide⟩

/-- The identifier of the sample copy. -/
def copyId : ObjectId := ⟨"c00000000000000000000001", by decide⟩

/-- An identifier under which nothing is stored. -/
def missingId : ObjectId := ⟨"f00000000000000000000009", by decide⟩

/-- A freshly generated identifier. -/
def freshId : ObjectId := ⟨"d00000000000000000000001", by decide⟩

/-- A second freshly generated identifier. -/
def freshId2 : ObjectId := ⟨"d00000000000000000000002", by decide⟩

/-- A sample collation for the closed examples, which compare names made of ASCII letters,
`&` and `;` only: two names are equal when they are the same up to the case of their ASCII
letters. -/
def asciiCollation : Collation :=
  ⟨fun s t => decide (lower s = lower t)⟩

/-- The empty store. -/
def emptyDb : Db := ⟨[], [], [], []⟩

/-- A sample Author. -/
def sampleAuthor : Author :=
  { _id := authorId, first_name := .val "Jane", family_name := .val "Austen",
    date_of_birth := .undef, date_of_death := .undef }

/-- A sample Genre. -/
def sampleGenre : Genre :=
  { _id := genreId, name := .val "Fiction" }

/-- A sample Book by the sample Author in the sample Genre. -/
def sampleBook : Book :=
  { _id := bookId, title := .val "Emma", author := .val authorId, summary := .val "A novel",
    isbn := .val "123", genre := [genreId] }

/-- A sample copy of the sample Book. -/
def sampleCopy : BookInstance :=
  { _id := copyId, book := .val bookId, imprint := .val "Penguin", status := .val "Available",
    due_back := .null }

/-- A store with one record in each collection: the Author, the Genre and the Book have a
dependent each. -/
def sampleDb : Db :=
  { authors := [sampleAuthor], genres := [sampleGenre], books := [sampleBook],
    bookinstances := [sampleCopy] }

/-- A store with one record in each collection and no reference between them. -/
def looseDb : Db :=
  { authors := [sampleAuthor], genres := [sampleGenre],
    books := [{ sampleBook with author := .undef, genre := [] }],
    bookinstances := [{ sampleCopy with book := .undef }] }

/-- A Book form submitted with an empty title. -/
def emptyTitleBody : BookBody :=
  { title := some "", author := some "a00000000000000000000001", summary := some "A <novel>",
    isbn := some "123", genre := .one "e00000000000000000000001" }

/-- A Book form submitted with an empty title and with an author and a genre that are not
identifiers. -/
def uncastRefsBody : BookBody :=
  { title := some "", author := some "zzz", summary := some "A novel", isbn := some "123",
    genre := .one "nope" }

/-- A clock in UTC that reads the given time. -/
def utcClock (time : Int) : Clock :=
  { now := ⟨time⟩, utcOffset := fun _ => 0 }

/-- A date library that knows the one date string `1970-01-01`. -/
def sampleDates : DateLib where
  isISO8601 := fun s => decide (s = "1970-01-01")
  toDate := fun s => if s = "1970-01-01" then some ⟨0⟩ else none
  toISOString := fun _ => "1970-01-01T00:00:00.000Z"
  dateToString := fun _ => "Thu Jan 01 1970"
  castDate := fun s => if s = "1970-01-01T00:00:00.000Z" then some ⟨0⟩ else none

/-- A valid Book form: a new title for the sample Book. -/
def sampleBookBody : BookBody :=
  { title := some "Persuasion", author := some "a00000000000000000000001",
    summary := some "A novel", isbn := some "456", genre := .one "e00000000000000000000001" }

/-- A valid BookInstance form: the sample copy, now on loan. -/
def sampleCopyBody : BookInstanceBody :=
  { book := some "b00000000000000000000001", imprint := some "Penguin",
    status := some "Loaned", due_back := some "" }

/-! ## Theorems -/

/-- Two identifiers with the same printed form are the same. -/
theorem ObjectId.ext_hex (a b : ObjectId) (h : a.hex = b.hex) : a = b := by
  cases a; cases b; simp only at h; subst h; rfl

/-- Lower-casing leaves the printed form of an identifier as it is. -/
theorem lower_of_wf (s : String) (h : isObjectIdHex s = true) : lower s = s := by
  simp only [isObjectIdHex, Bool.and_eq_true, List.all_eq_true] at h
  have key : ∀ l : List Char, (∀ c ∈ l, isLowerHexChar c = true) → l.map Char.toLower = l := by
    intro l hl
    induction l with
    | nil => rfl
    | cons a t ih =>
        have ha := hl a (List.mem_cons_self a t)
        have : a.toLower = a := by
          simp only [isLowerHexChar, Bool.or_eq_true, Bool.and_eq_true, decide_eq_true_eq] at ha
          simp only [Char.toLower]
          split
          · next hc =>
            have h65 : 65 ≤ a.toNat := hc.1
            have h90 : a.toNat ≤ 90 := hc.2
            omega
          · rfl
        simp [this, ih (fun c hc => hl c (List.mem_cons_of_mem a hc))]
  simp [lower, key _ h.2]

/-- The printed form of an identifier casts back to the identifier. -/
theorem ObjectId.ofString_hex (i : ObjectId) : ObjectId.ofString i.hex = some i := by
  have hl := lower_of_wf i.hex i.wf
  simp only [ObjectId.ofString, hl, i.wf, dite_true]

/-- With unique keys, erasing the first document that carries a key removes every document
that carries it. -/
theorem eraseP_eq_filter_of_nodup {α β : Type} [DecidableEq β] (f : α → β) (id : β) :
    ∀ l : List α, (l.map f).Nodup →
      l.eraseP (fun a => decide (f a = id)) = l.filter (fun a => decide (f a ≠ id))
  | [], _ => rfl
  | a :: l, h => by
      have hn : (l.map f).Nodup := (List.nodup_cons.mp (by simpa using h)).2
      have ha : f a ∉ l.map f := (List.nodup_cons.mp (by simpa using h)).1
      by_cases hid : f a = id
      · have hl : l.filter (fun a => decide (f a ≠ id)) = l := by
          apply List.filter_eq_self.mpr
          intro b hb
          have hne : f b ≠ id := by
            intro hb2
            exact ha (by rw [hid, ← hb2]; exact List.mem_map_of_mem f hb)
          simpa using hne
        rw [List.eraseP_cons_of_pos (by simpa using hid),
          List.filter_cons_of_neg (by simpa using hid)]
        exact hl.symm
      · rw [List.eraseP_cons_of_neg (by simpa using hid),
          List.filter_cons_of_pos (by simpa using hid), eraseP_eq_filter_of_nodup f id l hn]

/-- A key that has been filtered out is not found. -/
theorem find?_filter_ne {α β : Type} [DecidableEq β] (f : α → β) (id : β) (l : List α) :
    (l.filter (fun a => decide (f a ≠ id))).find? (fun a => decide (f a = id)) = none := by
  rw [List.find?_eq_none]
  intro a ha
  have := (List.mem_filter.mp ha).2
  simpa using this

/-- With unique keys the delete of each model removes the records with the key. -/
theorem findByIdAndDelete_eq_without (db : Db) (id : ObjectId) (huniq : db.UniqueIds) :
    Author.findByIdAndDelete db id = db.without .author id ∧
      Genre.findByIdAndDelete db id = db.without .genre id ∧
      Book.findByIdAndDelete db id = db.without .book id ∧
      BookInstance.findByIdAndDelete db id = db.without .bookinstance id := by
  obtain ⟨h1, h2, h3, h4⟩ := huniq
  refine ⟨?_, ?_, ?_, ?_⟩
  · simp only [Author.findByIdAndDelete, Db.without,
      eraseP_eq_filter_of_nodup (fun a : Author => a._id) id db.authors h1]
  · simp only [Genre.findByIdAndDelete, Db.without,
      eraseP_eq_filter_of_nodup (fun a : Genre => a._id) id db.genres h2]
  · simp only [Book.findByIdAndDelete, Db.without,
      eraseP_eq_filter_of_nodup (fun a : Book => a._id) id db.books h3]
  · simp only [BookInstance.findByIdAndDelete, Db.without,
      eraseP_eq_filter_of_nodup (fun a : BookInstance => a._id) id db.bookinstances h4]

/-- In the store without a record the record is not found. -/
theorem stored_without (e : Entity) (db : Db) (id : ObjectId) :
    e.stored (db.without e id) id = false := by
  cases e
  · simp only [Entity.stored, Db.without, Author.findById,
      find?_filter_ne (fun a : Author => a._id) id db.authors, Option.isSome_none]
  · simp only [Entity.stored, Db.without, Genre.findById,
      find?_filter_ne (fun a : Genre => a._id) id db.genres, Option.isSome_none]
  · simp only [Entity.stored, Db.without, Book.findById,
      find?_filter_ne (fun a : Book => a._id) id db.books, Option.isSome_none]
  · simp only [Entity.stored, Db.without, BookInstance.findById,
      find?_filter_ne (fun a : BookInstance => a._id) id db.bookinstances, Option.isSome_none]

/-- The detail handler on a route parameter that casts to the identifier of no stored record
passes an error with status 404 to `next` and leaves the store as it is. -/
theorem detailAt_of_not_stored (e : Entity) (db : Db) (param : String) (id : ObjectId)
    (hcast : ObjectId.ofString param = some id) (h : e.stored db id = false) :
    ∃ msg, e.detailAt db param = (db, .next (.withStatus msg 404)) := by
  cases e
  · simp only [Entity.stored] at h
    cases hf : Author.findById db id with
    | some a => simp [hf] at h
    | none => exact ⟨_, by simp only [Entity.detailAt, author_detail, hcast, hf]; rfl⟩
  · simp only [Entity.stored] at h
    cases hf : Genre.findById db id with
    | some a => simp [hf] at h
    | none => exact ⟨_, by simp only [Entity.detailAt, genre_detail, hcast, hf]; rfl⟩
  · simp only [Entity.stored] at h
    cases hf : Book.findById db id with
    | some a => simp [hf] at h
    | none =>
        exact ⟨_, by simp only [Entity.detailAt, book_detail, hcast, hf, Option.map_none']; rfl⟩
  · simp only [Entity.stored] at h
    cases hf : BookInstance.findById db id with
    | some a => simp [hf] at h
    | none =>
        exact ⟨_, by
          simp only [Entity.detailAt, bookinstance_detail, hcast, hf, Option.map_none']; rfl⟩

/-- The detail handler on a route parameter that casts to the identifier of a stored record
renders the detail view and leaves the store as it is. -/
theorem detailAt_of_stored (e : Entity) (db : Db) (param : String) (id : ObjectId)
    (hcast : ObjectId.ofString param = some id) (h : e.stored db id = true) :
    ∃ locals, e.detailAt db param = (db, .render e.detailView locals) := by
  cases e
  · simp only [Entity.stored] at h
    cases hf : Author.findById db id with
    | none => simp [hf] at h
    | some a => exact ⟨_, by simp only [Entity.detailAt, author_detail, hcast, hf]; rfl⟩
  · simp only [Entity.stored] at h
    cases hf : Genre.findById db id with
    | none => simp [hf] at h
    | some a => exact ⟨_, by simp only [Entity.detailAt, genre_detail, hcast, hf]; rfl⟩
  · simp only [Entity.stored] at h
    cases hf : Book.findById db id with
    | none => simp [hf] at h
    | some a =>
        exact ⟨_, by simp only [Entity.detailAt, book_detail, hcast, hf, Option.map_some']; rfl⟩
  · simp only [Entity.stored] at h
    cases hf : BookInstance.findById db id with
    | none => simp [hf] at h
    | some a =>
        exact ⟨_, by
          simp only [Entity.detailAt, bookinstance_detail, hcast, hf, Option.map_some']; rfl⟩

/-- The detail handlers of Author, Genre and BookInstance on a route parameter that does not
cast pass the cast error, which has no status, to `next`. -/
theorem detailAt_of_uncast (e : Entity) (db : Db) (param : String)
    (hcast : ObjectId.ofString param = none) (he : e ≠ .book) :
    e.detailAt db param = (db, .next .castError) := by
  cases e
  · simp only [Entity.detailAt, author_detail, hcast]
  · simp only [Entity.detailAt, genre_detail, hcast]
  · exact absurd rfl he
  · simp only [Entity.detailAt, bookinstance_detail, hcast]

/-- The detail handler of a record that is not stored passes an error with status 404 to
`next` and leaves the store as it is. -/
theorem detail_of_not_stored (e : Entity) (db : Db) (id : ObjectId)
    (h : e.stored db id = false) :
    ∃ msg, e.detail db id = (db, .next (.withStatus msg 404)) :=
  detailAt_of_not_stored e db id.hex id (ObjectId.ofString_hex id) h

/-- The delete POST of a stored record without dependents issues the delete of its model and
answers with a redirect. -/
theorem delete_post_of_no_dependents (e : Entity) (db : Db) (id : ObjectId)
    (hstored : e.stored db id = true) (hdep : e.dependents db id = 0) :
    (e.delete_post db id).1 =
        (match e with
          | .author => Author.findByIdAndDelete db id
          | .genre => Genre.findByIdAndDelete db id
          | .book => Book.findByIdAndDelete db id
          | .bookinstance => BookInstance.findByIdAndDelete db id) ∧
      ∃ url, (e.delete_post db id).2 = .redirect url := by
  cases e
  · simp only [Entity.stored] at hstored
    simp only [Entity.dependents] at hdep
    simp only [Entity.delete_post, author_delete_post]
    cases h : Author.findById db id with
    | none => simp [h] at hstored
    | some a => simp [hdep]
  · simp only [Entity.stored] at hstored
    simp only [Entity.dependents] at hdep
    simp only [Entity.delete_post, genre_delete_post]
    cases h : Genre.findById db id with
    | none => simp [h] at hstored
    | some a => simp [hdep]
  · simp only [Entity.stored] at hstored
    simp only [Entity.dependents] at hdep
    simp only [Entity.delete_post, book_delete_post]
    cases h : Book.findById db id with
    | none => simp [h] at hstored
    | some a => simp [hdep]
  · simp only [Entity.stored] at hstored
    simp only [Entity.delete_post, bookinstance_delete_post]
    cases h : BookInstance.findById db id with
    | none => simp [h] at hstored
    | some a => simp

/-- The chain of the Genre create POST on a submitted name: the name is trimmed and escaped,
and there is an error exactly when the trimmed name has fewer than 3 characters. -/
theorem genre_create_post_chains_eq (L : DateLib) (name : String) :
    genre_create_post_chains L (some name) =
      (.str (escape (trim name)),
        if isLength 3 (trim name) then []
        else [⟨"name", "Название жанра должно содержать не менее 3 символов",
          .str (trim name)⟩]) := by
  simp [genre_create_post_chains, runChain, Item.run, Val.ofBody, Val.toStr]

/-- A Genre create POST whose sanitized name matches a stored Genre writes nothing and
redirects to the first stored Genre that matches. -/
theorem genre_create_post_of_match (L : DateLib) (C : Collation) (db : Db) (newId : ObjectId)
    (name : String) (hvalid : isLength 3 (trim name) = true)
    (hex : ∃ g ∈ db.genres, ∃ n, g.name = .val n ∧ C.equal n (escape (trim name)) = true) :
    ∃ g ∈ db.genres, (∃ n, g.name = .val n ∧ C.equal n (escape (trim name)) = true) ∧
      genre_create_post L C db newId (some name) =
        (db, .redirect ("/catalog/genre/" ++ g._id.hex)) := by
  obtain ⟨g, hg, n, hn, hc⟩ := hex
  have hsome : (Genre.findOneByName L C db (.str (escape (trim name)))).isSome = true := by
    simp only [Genre.findOneByName, castString, List.find?_isSome]
    exact ⟨g, hg, by simp [hn, hc]⟩
  cases hf : Genre.findOneByName L C db (.str (escape (trim name))) with
  | none => simp [hf] at hsome
  | some g0 =>
      have hf2 := hf
      simp only [Genre.findOneByName, castString] at hf2
      have hmem := List.mem_of_find?_eq_some hf2
      have hp := List.find?_some hf2
      refine ⟨g0, hmem, ?_, ?_⟩
      · cases hg0 : g0.name with
        | val n0 => exact ⟨n0, rfl, by simpa [hg0] using hp⟩
        | undef => simp [hg0] at hp
        | null => simp [hg0] at hp
      · simp [genre_create_post, genre_create_post_chains_eq, hvalid, hf, Genre.url]

/-- Two successive creates of "Fiction" on a store without it: the first saves one Genre, the
second finds it and redirects to it. -/
theorem genre_create_post_twice (L : DateLib) (C : Collation) (db : Db) (id1 id2 : ObjectId)
    (hrefl : C.equal "Fiction" "Fiction" = true)
    (hnone : ∀ g ∈ db.genres, isFiction C g = false)
    (hfresh : ∀ g ∈ db.genres, g._id ≠ id1) :
    genre_create_post L C db id1 (some "Fiction") =
        ({ db with genres := db.genres ++ [⟨id1, .val "Fiction"⟩] },
          .redirect ("/catalog/genre/" ++ id1.hex)) ∧
      genre_create_post L C (genre_create_post L C db id1 (some "Fiction")).1 id2
          (some "Fiction") =
        ((genre_create_post L C db id1 (some "Fiction")).1,
          .redirect ("/catalog/genre/" ++ id1.hex)) ∧
      ((genre_create_post L C (genre_create_post L C db id1 (some "Fiction")).1 id2
        (some "Fiction")).1.genres.filter (isFiction C)).length = 1 := by
  have he : escape (trim "Fiction") = "Fiction" := by decide
  have hl : isLength 3 (trim "Fiction") = true := by decide
  have hfind : Genre.findOneByName L C db (.str "Fiction") = none := by
    simp only [Genre.findOneByName, castString, List.find?_eq_none]
    intro g hg
    have := hnone g hg
    simpa [isFiction] using this
  have hany : db.genres.any (fun x => decide (x._id = id1)) = false := by
    simp only [List.any_eq_false]
    intro g hg
    simpa using hfresh g hg
  have h1 : genre_create_post L C db id1 (some "Fiction") =
      ({ db with genres := db.genres ++ [⟨id1, .val "Fiction"⟩] },
        .redirect ("/catalog/genre/" ++ id1.hex)) := by
    have hv : Genre.valid ⟨id1, .val "Fiction"⟩ = true := rfl
    simp [genre_create_post, genre_create_post_chains_eq, hl, he, hfind, Genre.save, Genre.new,
      castString, hv, hany, Genre.url]
  have hfind2 : Genre.findOneByName L C
      { db with genres := db.genres ++ [⟨id1, .val "Fiction"⟩] } (.str "Fiction") =
      some ⟨id1, .val "Fiction"⟩ := by
    simp only [Genre.findOneByName, castString] at hfind ⊢
    rw [List.find?_append, hfind]
    simp [hrefl]
  have h2 : genre_create_post L C { db with genres := db.genres ++ [⟨id1, .val "Fiction"⟩] }
      id2 (some "Fiction") =
      ({ db with genres := db.genres ++ [⟨id1, .val "Fiction"⟩] },
        .redirect ("/catalog/genre/" ++ id1.hex)) := by
    simp [genre_create_post, genre_create_post_chains_eq, hl, he, hfind2, Genre.url]
  have hfilter : db.genres.filter (isFiction C) = [] := by
    rw [List.filter_eq_nil_iff]
    intro g hg
    simp [hnone g hg]
  have hnew : isFiction C ⟨id1, .val "Fiction"⟩ = true := by
    simp [isFiction, hrefl]
  refine ⟨h1, ?_, ?_⟩
  · rw [h1]
    exact h2
  · rw [h1, h2]
    simp [List.filter_append, hfilter, List.filter_cons, hnew]

/-- Dropping leading whitespace twice is dropping it once. -/
theorem ltrimChars_idem (l : List Char) : ltrimChars (ltrimChars l) = ltrimChars l := by
  induction l with
  | nil => rfl
  | cons a t ih =>
      by_cases h : isWhitespace a = true
      · simp [ltrimChars, h, ih]
      · simp [ltrimChars, h]

/-- Dropping leading whitespace does not lengthen a string. -/
theorem ltrimChars_length_le (l : List Char) : (ltrimChars l).length ≤ l.length := by
  induction l with
  | nil => simp [ltrimChars]
  | cons a t ih =>
      by_cases h : isWhitespace a = true
      · simp only [ltrimChars, h, if_true, List.length_cons]
        omega
      · simp [ltrimChars, h]

/-- A final character that is not whitespace survives the drop of the leading whitespace. -/
theorem ltrimChars_append_singleton (l : List Char) (a : Char) (h : isWhitespace a = false) :
    ltrimChars (l ++ [a]) = ltrimChars l ++ [a] := by
  induction l with
  | nil => simp [ltrimChars, h]
  | cons b t ih =>
      by_cases hb : isWhitespace b = true
      · simp [ltrimChars, hb, ih]
      · simp [ltrimChars, hb]

/-- A first character that is not whitespace survives the drop of the trailing whitespace. -/
theorem rtrimChars_cons (a : Char) (t : List Char) (h : isWhitespace a = false) :
    rtrimChars (a :: t) = a :: rtrimChars t := by
  simp [rtrimChars, ltrimChars_append_singleton _ _ h]

/-- Dropping trailing whitespace twice is dropping it once. -/
theorem rtrimChars_idem (l : List Char) : rtrimChars (rtrimChars l) = rtrimChars l := by
  simp [rtrimChars, ltrimChars_idem]

/-- The sanitizer `trim()` is idempotent. -/
theorem trim_trim (s : String) : trim (trim s) = trim s := by
  have key : ∀ x : List Char, ltrimChars x = x →
      rtrimChars (ltrimChars (rtrimChars x)) = rtrimChars x := by
    intro x hx
    cases x with
    | nil => rfl
    | cons a t =>
        have ha : isWhitespace a = false := by
          by_contra hc
          have hc2 : isWhitespace a = true := by simpa using hc
          have hlen := congrArg List.length hx
          simp only [ltrimChars, hc2, if_true, List.length_cons] at hlen
          have := ltrimChars_length_le t
          omega
        rw [rtrimChars_cons a t ha]
        simp [ltrimChars, ha, rtrimChars_cons _ _ ha, rtrimChars_idem]
  simp only [trim]
  rw [key _ (ltrimChars_idem _)]



/-- The string a chain sees for a body field: the empty string when the field is absent. -/
theorem toStr_ofBody (L : DateLib) (v : Option String) : (Val.ofBody v).toStr L = v.getD "" := by
  cases v <;> rfl

/-- The string a chain sees for a string value is the string. -/
theorem toStr_str (L : DateLib) (s : String) : (Val.str s).toStr L = s := rfl

/-- The empty string fails `isLength({ min: 1 })`. -/
theorem isLength_one_empty : isLength 1 "" = false := by decide

/-- Trimming the empty string gives the empty string. -/
theorem trim_empty : trim "" = "" := by decide

/-- The fields the chains of the Book create POST leave in the body. -/
theorem book_create_post_chains_fields (L : DateLib) (b : BookBody) :
    (book_create_post_chains L b).1 =
      { title := .str (escape (trim (b.title.getD "")))
        author := .str (escape (trim (b.author.getD "")))
        summary := .str (escape (trim (b.summary.getD "")))
        isbn := .str (escape (trim (b.isbn.getD "")))
        genre := b.genre.mapElems escape } := by
  simp [book_create_post_chains, runChain, Item.run, toStr_ofBody, toStr_str]

/-- The fields the chains of the Book update POST leave in the body. -/
theorem book_update_post_chains_fields (L : DateLib) (b : BookBody) :
    (book_update_post_chains L b).1 =
      { title := .str (escape (trim (b.title.getD "")))
        author := .str (escape (trim (b.author.getD "")))
        summary := .str (escape (trim (b.summary.getD "")))
        isbn := .str (escape (trim (b.isbn.getD "")))
        genre := b.genre.mapElems fun s => escape (trim s) } := by
  simp [book_update_post_chains, runChain, Item.run, toStr_ofBody, toStr_str, trim_trim]

/-- An empty required field makes the chains of the Book create POST report an error. -/
theorem book_create_post_chains_errors (L : DateLib) (b : BookBody)
    (h : b.title.getD "" = "" ∨ b.author.getD "" = "" ∨ b.summary.getD "" = "" ∨
      b.isbn.getD "" = "") :
    (book_create_post_chains L b).2 ≠ [] := by
  simp only [book_create_post_chains, runChain, Item.run, toStr_ofBody, toStr_str,
    Bool.false_and, Bool.false_eq_true, if_false, List.nil_append, List.append_nil]
  rcases h with h | h | h | h <;> simp [h, trim_empty, isLength_one_empty]

/-- An empty required field makes the chains of the Book update POST report an error. -/
theorem book_update_post_chains_errors (L : DateLib) (b : BookBody)
    (h : b.title.getD "" = "" ∨ b.author.getD "" = "" ∨ b.summary.getD "" = "" ∨
      b.isbn.getD "" = "") :
    (book_update_post_chains L b).2 ≠ [] := by
  simp only [book_update_post_chains, runChain, Item.run, toStr_ofBody, toStr_str,
    Bool.false_and, Bool.false_eq_true, if_false, List.nil_append, List.append_nil]
  rcases h with h | h | h | h <;> simp [h, trim_empty, isLength_one_empty]



/-- The first middleware of the Book create POST changes the genre field only. -/
theorem book_create_post_genre_eq (body : BookBody) :
    book_create_post_genre body = { body with genre := .many body.genre.toList } := by
  cases body with
  | mk t a s i g => cases g <;> rfl

/-- The first middleware of the Book update POST changes the genre field only. -/
theorem book_update_post_genre_eq (body : BookBody) :
    book_update_post_genre body = { body with genre := .many body.genre.toList } := by
  cases body with
  | mk t a s i g => cases g <;> rfl

/-- The Book built from the sanitized fields carries them. -/
theorem Book.new_carries (L : DateLib) (id : ObjectId) (body : BookBody) (f : String → String) :
    Book.Carries f body (Book.new L id
      { title := .str (escape (trim (body.title.getD "")))
        author := .str (escape (trim (body.author.getD "")))
        summary := .str (escape (trim (body.summary.getD "")))
        isbn := .str (escape (trim (body.isbn.getD "")))
        genre := .many (body.genre.toList.map f) }).doc := by
  refine ⟨rfl, rfl, rfl, ?_, ?_⟩
  · intro i hi
    simp [Book.new, castObjectId, hi, castOr]
  · intro ids hids
    simp [Book.new, hids]


/-- The Book built from the sanitized fields is the view-model of the body. -/
theorem Book.new_carriesCast (L : DateLib) (id : ObjectId) (body : BookBody)
    (f : String → String) :
    Book.CarriesCast f body (Book.new L id
      { title := .str (escape (trim (body.title.getD "")))
        author := .str (escape (trim (body.author.getD "")))
        summary := .str (escape (trim (body.summary.getD "")))
        isbn := .str (escape (trim (body.isbn.getD "")))
        genre := .many (body.genre.toList.map f) }).doc := by
  refine ⟨rfl, rfl, rfl, ?_, rfl⟩
  simp only [Book.new, castObjectId, castOr]
  cases ObjectId.ofString (escape (trim (body.author.getD ""))) <;> rfl

/-- A letter or digit is not whitespace. -/
theorem isWhitespace_of_isAlnumChar (c : Char) (h : isAlnumChar c = true) :
    isWhitespace c = false := by
  simp only [isAlnumChar, Bool.or_eq_true, Bool.and_eq_true, decide_eq_true_eq] at h
  simp only [isWhitespace, Bool.or_eq_false_iff, Bool.and_eq_false_iff, decide_eq_false_iff_not]
  omega

/-- A letter or digit is not escaped. -/
theorem escapeChar_of_isAlnumChar (c : Char) (h : isAlnumChar c = true) :
    escapeChar c = [c] := by
  simp only [isAlnumChar, Bool.or_eq_true, Bool.and_eq_true, decide_eq_true_eq] at h
  simp only [escapeChar]
  repeat rw [if_neg (by omega)]

/-- Without whitespace there is nothing to drop. -/
theorem ltrimChars_of_all (l : List Char) (h : ∀ c ∈ l, isWhitespace c = false) :
    ltrimChars l = l := by
  cases l with
  | nil => rfl
  | cons a t => simp [ltrimChars, h a (List.mem_cons_self a t)]

/-- The sanitizer `trim()` leaves a string without whitespace as it is. -/
theorem trim_of_all (s : String) (h : ∀ c ∈ s.data, isWhitespace c = false) : trim s = s := by
  have h2 : ∀ c ∈ s.data.reverse, isWhitespace c = false := by
    intro c hc
    exact h c (List.mem_reverse.mp hc)
  simp [trim, rtrimChars, ltrimChars_of_all _ h, ltrimChars_of_all _ h2]

/-- The sanitizer `escape()` leaves a string without special characters as it is. -/
theorem escape_of_all (s : String) (h : ∀ c ∈ s.data, escapeChar c = [c]) : escape s = s := by
  have key : ∀ l : List Char, (∀ c ∈ l, escapeChar c = [c]) → l.flatMap escapeChar = l := by
    intro l
    induction l with
    | nil => intro _; rfl
    | cons a t ih =>
        intro hl
        simp only [List.flatMap_cons, hl a (List.mem_cons_self a t), List.singleton_append]
        rw [ih fun c hc => hl c (List.mem_cons_of_mem a hc)]
  simp [escape, key _ h]

/-- An alphanumeric string is non-empty and is left as it is by `trim()` and `escape()`. -/
theorem sanitize_of_isAlphanumeric (s : String) (h : isAlphanumeric s = true) :
    trim s = s ∧ escape s = s ∧ isLength 1 s = true ∧ s.data.isEmpty = false := by
  simp only [isAlphanumeric, Bool.and_eq_true, Bool.not_eq_true', List.all_eq_true] at h
  obtain ⟨hne, hall⟩ := h
  refine ⟨trim_of_all s fun c hc => isWhitespace_of_isAlnumChar c (hall c hc),
    escape_of_all s fun c hc => escapeChar_of_isAlnumChar c (hall c hc), ?_, hne⟩
  have hsel : s.data.countP isPresentationSelector = 0 := by
    rw [List.countP_eq_zero]
    intro c hc
    have hc2 := hall c hc
    simp only [isAlnumChar, Bool.or_eq_true, Bool.and_eq_true, decide_eq_true_eq] at hc2
    simp only [isPresentationSelector, Bool.or_eq_true, decide_eq_true_eq]
    omega
  simp only [isLength, decide_eq_true_eq, hsel]
  cases hd : s.data with
  | nil => simp [hd] at hne
  | cons a t => simp

/-- Appending a document whose key is new keeps the keys distinct. -/
theorem nodup_map_append_singleton {α β : Type} [DecidableEq β] (f : α → β) (l : List α) (d : α)
    (h : (l.map f).Nodup) (hd : l.any (fun x => decide (f x = f d)) = false) :
    ((l ++ [d]).map f).Nodup := by
  rw [List.map_append, List.map_singleton]
  refine List.Nodup.append h (List.nodup_singleton _) ?_
  intro b hb hb2
  rw [List.mem_singleton] at hb2
  subst hb2
  obtain ⟨x, hx, hfx⟩ := List.mem_map.mp hb
  simp only [List.any_eq_false] at hd
  exact hd x hx (by simpa using hfx)

/-- Erasing a document keeps the keys distinct. -/
theorem nodup_map_eraseP {α β : Type} (f : α → β) (p : α → Bool) (l : List α)
    (h : (l.map f).Nodup) : ((l.eraseP p).map f).Nodup :=
  List.Nodup.sublist ((List.eraseP_sublist l).map f) h

/-- An update that keeps the key of a document keeps the keys of the list. -/
theorem map_updateFirst {α β : Type} (g : α → β) (p : α → Bool) (f : α → α)
    (hf : ∀ a, g (f a) = g a) (l : List α) : (updateFirst p f l).map g = l.map g := by
  induction l with
  | nil => rfl
  | cons a t ih =>
      by_cases hp : p a = true
      · simp [updateFirst, hp, hf]
      · simp [updateFirst, hp, ih]

/-- The unique index is kept by every `save()` that succeeds. -/
theorem save_uniqueIds (db db2 : Db) (h : db.UniqueIds) :
    (∀ a, Author.save db a = .ok db2 → db2.UniqueIds) ∧
      (∀ g, Genre.save db g = .ok db2 → db2.UniqueIds) ∧
      (∀ b, Book.save db b = .ok db2 → db2.UniqueIds) ∧
      (∀ b, BookInstance.save db b = .ok db2 → db2.UniqueIds) := by
  obtain ⟨h1, h2, h3, h4⟩ := h
  refine ⟨?_, ?_, ?_, ?_⟩
  · intro a hs
    simp only [Author.save] at hs
    split at hs
    · cases hs
    · split at hs
      · cases hs
      · next hany =>
        cases hs
        exact ⟨nodup_map_append_singleton (fun x : Author => x._id) _ _ h1 (by simpa using hany),
          h2, h3, h4⟩
  · intro a hs
    simp only [Genre.save] at hs
    split at hs
    · cases hs
    · split at hs
      · cases hs
      · next hany =>
        cases hs
        exact ⟨h1, nodup_map_append_singleton (fun x : Genre => x._id) _ _ h2
          (by simpa using hany), h3, h4⟩
  · intro a hs
    simp only [Book.save] at hs
    split at hs
    · cases hs
    · split at hs
      · cases hs
      · next hany =>
        cases hs
        exact ⟨h1, h2, nodup_map_append_singleton (fun x : Book => x._id) _ _ h3
          (by simpa using hany), h4⟩
  · intro a hs
    simp only [BookInstance.save] at hs
    split at hs
    · cases hs
    · split at hs
      · cases hs
      · next hany =>
        cases hs
        exact ⟨h1, h2, h3, nodup_map_append_singleton (fun x : BookInstance => x._id) _ _ h4
          (by simpa using hany)⟩

/-- The unique index is kept by every delete. -/
theorem findByIdAndDelete_uniqueIds (db : Db) (id : ObjectId) (h : db.UniqueIds) :
    (Author.findByIdAndDelete db id).UniqueIds ∧ (Genre.findByIdAndDelete db id).UniqueIds ∧
      (Book.findByIdAndDelete db id).UniqueIds ∧
      (BookInstance.findByIdAndDelete db id).UniqueIds := by
  obtain ⟨h1, h2, h3, h4⟩ := h
  exact ⟨⟨nodup_map_eraseP _ _ _ h1, h2, h3, h4⟩, ⟨h1, nodup_map_eraseP _ _ _ h2, h3, h4⟩,
    ⟨h1, h2, nodup_map_eraseP _ _ _ h3, h4⟩, ⟨h1, h2, h3, nodup_map_eraseP _ _ _ h4⟩⟩

/-- The unique index is kept by every update. -/
theorem findByIdAndUpdate_uniqueIds (db : Db) (id : ObjectId) (h : db.UniqueIds) :
    (∀ u, (Author.findByIdAndUpdate db id u).1.UniqueIds) ∧
      (∀ u, (Genre.findByIdAndUpdate db id u).1.UniqueIds) ∧
      (∀ u, (Book.findByIdAndUpdate db id u).1.UniqueIds) ∧
      (∀ u, (BookInstance.findByIdAndUpdate db id u).1.UniqueIds) := by
  have h0 := h
  obtain ⟨h1, h2, h3, h4⟩ := h
  refine ⟨?_, ?_, ?_, ?_⟩
  · intro u
    simp only [Author.findByIdAndUpdate]
    split
    · exact h0
    · refine ⟨?_, h2, h3, h4⟩
      simp only []
      rw [map_updateFirst (fun x : Author => x._id) _ (fun x => x.merge u) (fun a => rfl)]
      exact h1
  · intro u
    simp only [Genre.findByIdAndUpdate]
    split
    · exact h0
    · refine ⟨h1, ?_, h3, h4⟩
      simp only []
      rw [map_updateFirst (fun x : Genre => x._id) _ (fun x => x.merge u) (fun a => rfl)]
      exact h2
  · intro u
    simp only [Book.findByIdAndUpdate]
    split
    · exact h0
    · refine ⟨h1, h2, ?_, h4⟩
      simp only []
      rw [map_updateFirst (fun x : Book => x._id) _ (fun x => x.merge u) (fun a => rfl)]
      exact h3
  · intro u
    simp only [BookInstance.findByIdAndUpdate]
    split
    · exact h0
    · refine ⟨h1, h2, h3, ?_⟩
      simp only []
      rw [map_updateFirst (fun x : BookInstance => x._id) _ (fun x => x.merge u) (fun a => rfl)]
      exact h4


/-- A Genre found under an identifier carries it and is stored. -/
theorem findById_id_eq (db : Db) (i : ObjectId) (g : Genre) (h : Genre.findById db i = some g) :
    g._id = i ∧ g ∈ db.genres := by
  simp only [Genre.findById] at h
  exact ⟨by simpa using List.find?_some h, List.mem_of_find?_eq_some h⟩

/-- After the update of the first match, the search finds the updated document. -/
theorem find?_updateFirst {α : Type} (p : α → Bool) (f : α → α) (old : α)
    (hf : p (f old) = true) :
    ∀ l : List α, l.find? p = some old → (updateFirst p f l).find? p = some (f old)
  | [], h => by simp at h
  | a :: t, h => by
      by_cases hp : p a = true
      · have : a = old := by simpa [List.find?_cons, hp] using h
        subst this
        simp [updateFirst, hp, List.find?_cons, hf]
      · have ht : t.find? p = some old := by simpa [List.find?_cons, hp] using h
        simp [updateFirst, hp, List.find?_cons, find?_updateFirst p f old hf t ht]

/-- An update of the first match is invisible to a filter that rejects the match before and
after the update. -/
theorem filter_updateFirst {α : Type} (p q : α → Bool) (f : α → α)
    (hq : ∀ a, p a = true → q a = false ∧ q (f a) = false) :
    ∀ l : List α, (updateFirst p f l).filter q = l.filter q
  | [] => rfl
  | a :: t => by
      by_cases hp : p a = true
      · simp [updateFirst, hp, List.filter_cons, (hq a hp).1, (hq a hp).2]
      · simp [updateFirst, hp, List.filter_cons, filter_updateFirst p q f hq t]

/-- The chain of the Genre update POST: the name is trimmed and escaped, and there is an error
exactly when the trimmed name has fewer than 3 characters. -/
theorem genre_update_post_chains_eq (L : DateLib) (name : Option String) :
    genre_update_post_chains L name =
      (.str (escape (trim (name.getD ""))),
        if isLength 3 (trim (name.getD "")) then []
        else [⟨"name", "Genre name must contain at least 3 characters",
          .str (trim (name.getD ""))⟩]) := by
  simp [genre_update_post_chains, runChain, Item.run, toStr_ofBody, toStr_str]

/-- The Genre update POST with a valid name on a stored Genre. -/
theorem genre_update_post_of_valid (L : DateLib) (db : Db) (id : ObjectId)
    (name : Option String) (old : Genre)
    (hold : Genre.findById db id = some old) (hvalid : (genre_update_post_chains L name).2 = []) :
    (genre_update_post L db id name).2 = .redirect ("/catalog/genre/" ++ id.hex) ∧
      db.UpdatedAt .genre id (genre_update_post L db id name).1 ∧
      Genre.findById (genre_update_post L db id name).1 id =
        some ⟨id, .val (escape (trim (name.getD "")))⟩ := by
  have hid : old._id = id := (findById_id_eq db id old hold).1
  have hch := genre_update_post_chains_eq L name
  have hr : genre_update_post L db id name =
      ({ db with genres := (updateFirst (fun g => decide (g._id = id))
          (fun g => g.merge ⟨id, .val (escape (trim (name.getD "")))⟩) db.genres) },
        .redirect ("/catalog/genre/" ++ id.hex)) := by
    simp only [genre_update_post, hvalid, List.isEmpty_nil, Bool.not_true, Bool.false_eq_true,
      if_false, Genre.findByIdAndUpdate, hold, Genre.url, hid]
    rw [hch]
    rfl
  rw [hr]
  refine ⟨rfl, ⟨?_, ?_⟩, ?_⟩
  · exact map_updateFirst (fun g : Genre => g._id) _
      (fun g => g.merge ⟨id, .val (escape (trim (name.getD "")))⟩) (fun _ => rfl) db.genres
  · simp only [Db.without]
    rw [filter_updateFirst _ _ _ (fun a ha => by simpa [Genre.merge] using ha)]
  · simp only [Genre.findById] at hold ⊢
    rw [find?_updateFirst _ _ old (by simpa [Genre.merge] using hid) _ hold]
    simp [Genre.merge, Field.orKeep, hid]

/-- The empty string is left empty by `trim()` and `escape()`. -/
theorem escape_trim_empty : escape (trim "") = "" := by decide

/-- The update of a stored Author: the result, the frame, and the record found afterwards. -/
theorem author_update_frame (db : Db) (id : ObjectId) (old u : Author)
    (hold : Author.findById db id = some old) :
    old._id = id ∧
      Author.findByIdAndUpdate db id u =
        ({ db with authors :=
            (updateFirst (fun a => decide (a._id = id)) (fun a => a.merge u) db.authors) },
          some old) ∧
      db.UpdatedAt .author id (Author.findByIdAndUpdate db id u).1 ∧
      Author.findById (Author.findByIdAndUpdate db id u).1 id = some (old.merge u) := by
  have hid : old._id = id := by
    simp only [Author.findById] at hold
    simpa using List.find?_some hold
  have hr : Author.findByIdAndUpdate db id u =
      ({ db with authors :=
          (updateFirst (fun a => decide (a._id = id)) (fun a => a.merge u) db.authors) },
        some old) := by
    simp only [Author.findByIdAndUpdate, hold]
  refine ⟨hid, hr, ?_, ?_⟩
  · rw [hr]
    refine ⟨?_, ?_⟩
    · exact map_updateFirst (fun a : Author => a._id) _ (fun a => a.merge u) (fun _ => rfl)
        db.authors
    · simp only [Db.without]
      rw [filter_updateFirst _ _ _ (fun a ha => by simpa [Author.merge] using ha)]
  · rw [hr]
    simp only [Author.findById] at hold ⊢
    exact find?_updateFirst _ _ old (by simpa [Author.merge] using hid) _ hold

/-- A date of the Author update form that is empty or absent is stored as `null`. -/
theorem update_date_empty (L : DateLib) (path msg : String) (v : Option String)
    (h : v.getD "" = "") :
    (castOr (castDateField L (runChain L path false [.trim, .escape]
      (runChain L path true [.isISO8601 msg, .toDate] (Val.ofBody v)).1).1)).1 = .null := by
  cases v with
  | none => simp [runChain, Item.run, Val.ofBody, Val.truthy, Val.toStr, escape_trim_empty,
      castDateField, castOr]
  | some s =>
      simp only [Option.getD_some] at h
      subst h
      simp [runChain, Item.run, Val.ofBody, Val.truthy, Val.toStr, escape_trim_empty,
        castDateField, castOr]

/-- A date of the Author update form that reads as a date is stored as that date. -/
theorem update_date_roundtrip (L : DateLib) (path msg : String) (v : Option String)
    (d : JsDate) (h : L.RoundTrips (v.getD "") d) :
    (castOr (castDateField L (runChain L path false [.trim, .escape]
      (runChain L path true [.isISO8601 msg, .toDate] (Val.ofBody v)).1).1)).1 = .val d := by
  obtain ⟨hne, hparse, hne2, hcast⟩ := h
  cases v with
  | none => simp at hne
  | some s =>
      simp only [Option.getD_some] at hne hparse
      simp [runChain, Item.run, Val.ofBody, Val.truthy, Val.toStr, hne, hparse, castDateField,
        hne2, hcast, castOr]

/-- The Author update POST with a valid body on a stored Author. -/
theorem author_update_post_of_valid (L : DateLib) (db : Db) (id : ObjectId) (body : AuthorBody)
    (old : Author) (hold : Author.findById db id = some old)
    (hvalid : (author_update_post_chains L body).2 = []) :
    (author_update_post L db id body).2 = .redirect ("/catalog/author/" ++ id.hex) ∧
      db.UpdatedAt .author id (author_update_post L db id body).1 ∧
      ∃ a, Author.findById (author_update_post L db id body).1 id = some a ∧ a._id = id ∧
        Author.Carries L body a := by
  obtain ⟨hid, hr, hframe, hfind⟩ :=
    author_update_frame db id old (Author.new L id (author_update_post_chains L body).1).doc hold
  have hpost : author_update_post L db id body =
      ((Author.findByIdAndUpdate db id
        (Author.new L id (author_update_post_chains L body).1).doc).1,
        .redirect ("/catalog/author/" ++ id.hex)) := by
    simp only [author_update_post, hvalid, List.isEmpty_nil, Bool.not_true, Bool.false_eq_true,
      if_false, hr, Author.url, hid]
  rw [hpost]
  refine ⟨rfl, hframe, _, hfind, hid, ?_⟩
  refine ⟨?_, ?_, ?_, ?_, ?_, ?_⟩
  · simp [Author.merge, Author.new, author_update_post_chains, runChain, Item.run, toStr_ofBody,
      toStr_str, castString, Field.orKeep, trim_trim]
  · simp [Author.merge, Author.new, author_update_post_chains, runChain, Item.run, toStr_ofBody,
      toStr_str, castString, Field.orKeep, trim_trim]
  · intro h
    have := update_date_empty L "date_of_birth" "Дата рождения must not be empty."
      body.date_of_birth h
    simp only [Author.merge, Author.new, author_update_post_chains, this, Field.orKeep]
  · intro d h
    have := update_date_roundtrip L "date_of_birth" "Дата рождения must not be empty."
      body.date_of_birth d h
    simp only [Author.merge, Author.new, author_update_post_chains, this, Field.orKeep]
  · intro h
    have := update_date_empty L "date_of_death" "ISBN must not be empty" body.date_of_death h
    simp only [Author.merge, Author.new, author_update_post_chains, this, Field.orKeep]
  · intro d h
    have := update_date_roundtrip L "date_of_death" "ISBN must not be empty"
      body.date_of_death d h
    simp only [Author.merge, Author.new, author_update_post_chains, this, Field.orKeep]

/-- The update of a stored Book: the result, the frame, and the record found afterwards. -/
theorem book_update_frame (db : Db) (id : ObjectId) (old u : Book)
    (hold : Book.findById db id = some old) :
    old._id = id ∧
      Book.findByIdAndUpdate db id u =
        ({ db with books :=
            (updateFirst (fun a => decide (a._id = id)) (fun a => a.merge u) db.books) },
          some (old.merge u)) ∧
      db.UpdatedAt .book id (Book.findByIdAndUpdate db id u).1 ∧
      Book.findById (Book.findByIdAndUpdate db id u).1 id = some (old.merge u) := by
  have hid : old._id = id := by
    simp only [Book.findById] at hold
    simpa using List.find?_some hold
  have hr : Book.findByIdAndUpdate db id u =
      ({ db with books :=
          (updateFirst (fun a => decide (a._id = id)) (fun a => a.merge u) db.books) },
        some (old.merge u)) := by
    simp only [Book.findByIdAndUpdate, hold]
  refine ⟨hid, hr, ?_, ?_⟩
  · rw [hr]
    refine ⟨?_, ?_⟩
    · exact map_updateFirst (fun a : Book => a._id) _ (fun a => a.merge u) (fun _ => rfl)
        db.books
    · simp only [Db.without]
      rw [filter_updateFirst _ _ _ (fun a ha => by simpa [Book.merge] using ha)]
  · rw [hr]
    simp only [Book.findById] at hold ⊢
    exact find?_updateFirst _ _ old (by simpa [Book.merge] using hid) _ hold

/-- The update of a stored BookInstance: the result, the frame, and the record found
afterwards. -/
theorem bookinstance_update_frame (db : Db) (id : ObjectId) (old u : BookInstance)
    (hold : BookInstance.findById db id = some old) :
    old._id = id ∧
      BookInstance.findByIdAndUpdate db id u =
        ({ db with bookinstances :=
            (updateFirst (fun a => decide (a._id = id)) (fun a => a.merge u) db.bookinstances) },
          some old) ∧
      db.UpdatedAt .bookinstance id (BookInstance.findByIdAndUpdate db id u).1 ∧
      BookInstance.findById (BookInstance.findByIdAndUpdate db id u).1 id =
        some (old.merge u) := by
  have hid : old._id = id := by
    simp only [BookInstance.findById] at hold
    simpa using List.find?_some hold
  have hr : BookInstance.findByIdAndUpdate db id u =
      ({ db with bookinstances :=
          (updateFirst (fun a => decide (a._id = id)) (fun a => a.merge u) db.bookinstances) },
        some old) := by
    simp only [BookInstance.findByIdAndUpdate, hold]
  refine ⟨hid, hr, ?_, ?_⟩
  · rw [hr]
    refine ⟨?_, ?_⟩
    · exact map_updateFirst (fun a : BookInstance => a._id) _ (fun a => a.merge u)
        (fun _ => rfl) db.bookinstances
    · simp only [Db.without]
      rw [filter_updateFirst _ _ _ (fun a ha => by simpa [BookInstance.merge] using ha)]
  · rw [hr]
    simp only [BookInstance.findById] at hold ⊢
    exact find?_updateFirst _ _ old (by simpa [BookInstance.merge] using hid) _ hold

/-- A stored Book updated with a document that carries the submitted values carries them. -/
theorem Book.merge_carries (f : String → String) (body : BookBody) (old u : Book)
    (h : Book.Carries f body u) : Book.Carries f body (old.merge u) := by
  obtain ⟨h1, h2, h3, h4, h5⟩ := h
  refine ⟨?_, ?_, ?_, ?_, ?_⟩
  · simp [Book.merge, h1, Field.orKeep]
  · simp [Book.merge, h2, Field.orKeep]
  · simp [Book.merge, h3, Field.orKeep]
  · intro i hi
    simp [Book.merge, h4 i hi, Field.orKeep]
  · intro ids hids
    simp [Book.merge, h5 ids hids]

/-- The Book update POST with a valid body on a stored Book. -/
theorem book_update_post_of_valid (L : DateLib) (db : Db) (id : ObjectId) (body : BookBody)
    (old : Book) (hold : Book.findById db id = some old)
    (hvalid : (book_update_post_chains L (book_update_post_genre body)).2 = []) :
    (book_update_post L db id body).2 = .redirect ("/catalog/book/" ++ id.hex) ∧
      db.UpdatedAt .book id (book_update_post L db id body).1 ∧
      ∃ b, Book.findById (book_update_post L db id body).1 id = some b ∧ b._id = id ∧
        Book.Carries (fun s => escape (trim s)) body b ∧
        (ObjectId.ofString (escape (trim (body.author.getD ""))) = none →
          b.author = old.author) := by
  obtain ⟨hid, hr, hframe, hfind⟩ := book_update_frame db id old
    (Book.new L id (book_update_post_chains L (book_update_post_genre body)).1).doc hold
  have hpost : book_update_post L db id body =
      ((Book.findByIdAndUpdate db id
        (Book.new L id (book_update_post_chains L (book_update_post_genre body)).1).doc).1,
        .redirect ("/catalog/book/" ++ id.hex)) := by
    simp only [book_update_post, hvalid, List.isEmpty_nil, Bool.not_true, Bool.false_eq_true,
      if_false, hr, Book.url, Book.merge, hid]
  have hf := book_update_post_chains_fields L (book_update_post_genre body)
  simp only [book_update_post_genre_eq, GenreInput.mapElems] at hf
  rw [hpost]
  refine ⟨rfl, hframe, _, hfind, hid, ?_, ?_⟩
  · apply Book.merge_carries
    rw [book_update_post_genre_eq, hf]
    exact Book.new_carries L id body _
  · intro hnone
    rw [book_update_post_genre_eq, hf]
    simp [Book.merge, Book.new, castObjectId, hnone, castOr, Field.orKeep]

/-- The fields the chains of the BookInstance update POST leave in the body. -/
theorem bookinstance_update_post_chains_fields (L : DateLib) (b : BookInstanceBody) :
    (bookinstance_update_post_chains L b).1 =
      { book := .str (escape (trim (b.book.getD "")))
        imprint := .str (escape (trim (b.imprint.getD "")))
        status := .str (escape (b.status.getD ""))
        due_back := (runChain L "due_back" true [.isISO8601 "Invalid date", .toDate]
          (.ofBody b.due_back)).1 } := by
  simp [bookinstance_update_post_chains, runChain, Item.run, toStr_ofBody, toStr_str]

/-- The BookInstance update POST with a valid body on a stored BookInstance. -/
theorem bookinstance_update_post_of_valid (L : DateLib) (now : JsDate) (db : Db)
    (id : ObjectId) (body : BookInstanceBody) (old : BookInstance)
    (hold : BookInstance.findById db id = some old)
    (hvalid : (bookinstance_update_post_chains L body).2 = []) :
    (bookinstance_update_post L now db id body).2 =
        .redirect ("/catalog/bookinstance/" ++ id.hex) ∧
      db.UpdatedAt .bookinstance id (bookinstance_update_post L now db id body).1 ∧
      ∃ b, BookInstance.findById (bookinstance_update_post L now db id body).1 id = some b ∧
        b._id = id ∧ BookInstance.Carries L body b ∧
        (ObjectId.ofString (escape (trim (body.book.getD ""))) = none → b.book = old.book) := by
  obtain ⟨hid, hr, hframe, hfind⟩ := bookinstance_update_frame db id old
    (BookInstance.new L now id (bookinstance_update_post_chains L body).1).doc hold
  have hpost : bookinstance_update_post L now db id body =
      ((BookInstance.findByIdAndUpdate db id
        (BookInstance.new L now id (bookinstance_update_post_chains L body).1).doc).1,
        .redirect ("/catalog/bookinstance/" ++ id.hex)) := by
    simp only [bookinstance_update_post, hvalid, List.isEmpty_nil, Bool.not_true,
      Bool.false_eq_true, if_false, hr, BookInstance.url, hid]
  have hf := bookinstance_update_post_chains_fields L body
  rw [hpost]
  refine ⟨rfl, hframe, _, hfind, hid, ⟨?_, ?_, ?_, ?_, ?_⟩, ?_⟩
  · simp [BookInstance.merge, BookInstance.new, hf, castString, Field.orKeep]
  · simp [BookInstance.merge, BookInstance.new, hf, castString, Field.orKeep, Field.withDefault]
  · intro i hi
    simp [BookInstance.merge, BookInstance.new, hf, castObjectId, hi, castOr, Field.orKeep]
  · intro hd
    simp [BookInstance.merge, BookInstance.new, hf, hd, runChain, Val.ofBody, Val.truthy,
      castDateField, castOr, Field.withDefault, Field.orKeep]
  · intro s d hs hne hparse
    simp [BookInstance.merge, BookInstance.new, hf, hs, runChain, Item.run, Val.ofBody,
      Val.truthy, Val.toStr, hne, hparse, castDateField, castOr, Field.withDefault,
      Field.orKeep]
  · intro hnone
    simp [BookInstance.merge, BookInstance.new, hf, castObjectId, hnone, castOr, Field.orKeep]

/-- With both dates present or `null`, the lifespan does not depend on the time of the read. -/
theorem Author.lifespan_of_dates (now1 now2 : JsDate) (utcOffset : JsDate → Int) (a : Author)
    (hb : a.date_of_birth ≠ .undef) (hd : a.date_of_death ≠ .undef) :
    a.lifespan ⟨now1, utcOffset⟩ = a.lifespan ⟨now2, utcOffset⟩ := by
  cases a with
  | mk i fn ln dob dod =>
      cases dob <;> cases dod <;> simp_all [Author.lifespan, momentFormat, formatDDMMYYYY]

/-- C1. When the record named by a delete POST is stored and has at least one dependent (a Book
for an Author or a Genre, a BookInstance for a Book), the handler deletes nothing: the store
after the call is the store before it, and the response is a render of the delete-confirmation
view of the entity. -/
theorem delete_post_blocked (e : Entity) (db : Db) (id : ObjectId)
    (hstored : e.stored db id = true) (hdep : 0 < e.dependents db id) :
    (e.delete_post db id).1 = db ∧
      ∃ locals, (e.delete_post db id).2 = .render e.deleteView locals := by
  cases e
  · simp only [Entity.stored, Entity.dependents, Entity.delete_post, Entity.deleteView] at *
    unfold author_delete_post
    cases h : Author.findById db id with
    | none => simp [h] at hstored
    | some a => simp [hdep]
  · simp only [Entity.stored, Entity.dependents, Entity.delete_post, Entity.deleteView] at *
    unfold genre_delete_post
    cases h : Genre.findById db id with
    | none => simp [h] at hstored
    | some a => simp [hdep]
  · simp only [Entity.stored, Entity.dependents, Entity.delete_post, Entity.deleteView] at *
    unfold book_delete_post
    cases h : Book.findById db id with
    | none => simp [h] at hstored
    | some a => simp [hdep]
  · simp [Entity.dependents] at hdep

/-- C1, at a store where the Author has a Book. -/
theorem delete_post_blocked_witness :
    (Entity.author.delete_post sampleDb authorId).1 = sampleDb ∧
      ∃ locals, (Entity.author.delete_post sampleDb authorId).2 = .render "author_delete" locals :=
  delete_post_blocked .author sampleDb authorId (by decide) (by decide)

/-- C2. In a store with unique identifiers, when the record named by a delete POST is stored
and has no dependents, the store after the call is the store before it without that record (so
every other record of every collection is as before), the record is no longer found, and the
detail handler of the entity, called next with the same identifier, passes an error with
status 404 to `next` (it renders nothing). -/
theorem delete_post_removes (e : Entity) (db : Db) (id : ObjectId) (huniq : db.UniqueIds)
    (hstored : e.stored db id = true) (hdep : e.dependents db id = 0) :
    (e.delete_post db id).1 = db.without e id ∧
      e.stored (e.delete_post db id).1 id = false ∧
      ∃ err, e.detail (e.delete_post db id).1 id = ((e.delete_post db id).1, .next err) ∧
        err.status = some 404 := by
  have hdel := (delete_post_of_no_dependents e db id hstored hdep).1
  have hw := findByIdAndDelete_eq_without db id huniq
  have h1 : (e.delete_post db id).1 = db.without e id := by
    rw [hdel]
    cases e
    · exact hw.1
    · exact hw.2.1
    · exact hw.2.2.1
    · exact hw.2.2.2
  refine ⟨h1, ?_, ?_⟩
  · rw [h1]
    exact stored_without e db id
  · rw [h1]
    obtain ⟨msg, hmsg⟩ := detail_of_not_stored e (db.without e id) id (stored_without e db id)
    exact ⟨_, hmsg, rfl⟩

/-- C2, at a store where the Genre has no Book. -/
theorem delete_post_removes_witness :
    (Entity.genre.delete_post looseDb genreId).1 = looseDb.without .genre genreId ∧
      Entity.genre.stored (Entity.genre.delete_post looseDb genreId).1 genreId = false ∧
      ∃ err, Entity.genre.detail (Entity.genre.delete_post looseDb genreId).1 genreId =
          ((Entity.genre.delete_post looseDb genreId).1, .next err) ∧
        err.status = some 404 :=
  delete_post_removes .genre looseDb genreId (by decide) (by decide) (by decide)

/-- C3, as stated, fails. The store holds the Genre that a create POST with the name `R&B`
saved, whose stored name is `R&amp;B`. A create POST whose name is that stored name passes
validation and equals it, yet the lookup is made with the escaped form `R&amp;amp;B`, which
differs from the stored name by more than letter case, finds nothing, and a second Genre is
saved, to which the response redirects. -/
theorem genre_create_post_raw_name_counterexample :
    genre_create_post DateLib.none asciiCollation emptyDb genreId (some "R&B") =
        (⟨[], [⟨genreId, .val "R&amp;B"⟩], [], []⟩,
          .redirect "/catalog/genre/e00000000000000000000001") ∧
      isLength 3 (trim "R&amp;B") = true ∧ asciiCollation.equal "R&amp;B" "R&amp;B" = true ∧
      escape (trim "R&amp;B") = "R&amp;amp;B" ∧
      asciiCollation.equal "R&amp;B" "R&amp;amp;B" = false ∧
      genre_create_post DateLib.none asciiCollation ⟨[], [⟨genreId, .val "R&amp;B"⟩], [], []⟩
          freshId (some "R&amp;B") =
        (⟨[], [⟨genreId, .val "R&amp;B"⟩, ⟨freshId, .val "R&amp;amp;B"⟩], [], []⟩,
          .redirect "/catalog/genre/d00000000000000000000001") := by
  decide

/-- C3, amended. For every collation of the lookup, every store and every Genre create POST
whose name has at least 3 characters after trimming and whose sanitized form (trimmed, then
escaped) equals, under the collation, the name of a stored Genre, the handler leaves the store
as it is and redirects to `/catalog/genre/<id>` of a stored Genre with such a name. And two
successive creates with the name "Fiction", on a store without a Genre whose name equals
"Fiction" under the collation and with a fresh first identifier, save one Genre, the second
redirects to the URL of the first, and exactly one Genre whose name equals "Fiction" under the
collation is stored afterwards. -/
theorem genre_create_post_no_duplicate :
    (∀ (L : DateLib) (C : Collation) (db : Db) (newId : ObjectId) (name : String),
      isLength 3 (trim name) = true →
      (∃ g ∈ db.genres, ∃ n, g.name = .val n ∧ C.equal n (escape (trim name)) = true) →
      ∃ g ∈ db.genres, (∃ n, g.name = .val n ∧ C.equal n (escape (trim name)) = true) ∧
        genre_create_post L C db newId (some name) =
          (db, .redirect ("/catalog/genre/" ++ g._id.hex))) ∧
    (∀ (L : DateLib) (C : Collation) (db : Db) (id1 id2 : ObjectId),
      C.equal "Fiction" "Fiction" = true →
      (∀ g ∈ db.genres, isFiction C g = false) → (∀ g ∈ db.genres, g._id ≠ id1) →
      genre_create_post L C db id1 (some "Fiction") =
          ({ db with genres := db.genres ++ [⟨id1, .val "Fiction"⟩] },
            .redirect ("/catalog/genre/" ++ id1.hex)) ∧
        genre_create_post L C (genre_create_post L C db id1 (some "Fiction")).1 id2
            (some "Fiction") =
          ((genre_create_post L C db id1 (some "Fiction")).1,
            .redirect ("/catalog/genre/" ++ id1.hex)) ∧
        ((genre_create_post L C (genre_create_post L C db id1 (some "Fiction")).1 id2
          (some "Fiction")).1.genres.filter (isFiction C)).length = 1) :=
  ⟨genre_create_post_of_match, genre_create_post_twice⟩

/-- C3 amended, under the sample collation: at a store that holds "Fiction" and a POST of
" fiction ", and at two creates of "Fiction" on the empty store. -/
theorem genre_create_post_no_duplicate_witness :
    (∃ g ∈ sampleDb.genres,
      (∃ n, g.name = .val n ∧ asciiCollation.equal n (escape (trim " fiction ")) = true) ∧
        genre_create_post DateLib.none asciiCollation sampleDb freshId (some " fiction ") =
          (sampleDb, .redirect ("/catalog/genre/" ++ g._id.hex))) ∧
    (genre_create_post DateLib.none asciiCollation emptyDb freshId (some "Fiction") =
          ({ emptyDb with genres := emptyDb.genres ++ [⟨freshId, .val "Fiction"⟩] },
            .redirect ("/catalog/genre/" ++ freshId.hex)) ∧
        genre_create_post DateLib.none asciiCollation
            (genre_create_post DateLib.none asciiCollation emptyDb freshId (some "Fiction")).1
            freshId2 (some "Fiction") =
          ((genre_create_post DateLib.none asciiCollation emptyDb freshId (some "Fiction")).1,
            .redirect ("/catalog/genre/" ++ freshId.hex)) ∧
        ((genre_create_post DateLib.none asciiCollation
          (genre_create_post DateLib.none asciiCollation emptyDb freshId (some "Fiction")).1
          freshId2 (some "Fiction")).1.genres.filter (isFiction asciiCollation)).length = 1) :=
  ⟨genre_create_post_no_duplicate.1 DateLib.none asciiCollation sampleDb freshId " fiction "
      (by decide) ⟨sampleGenre, by decide, "Fiction", rfl, by decide⟩,
    genre_create_post_no_duplicate.2 DateLib.none asciiCollation emptyDb freshId freshId2
      (by decide) (by decide) (by decide)⟩

/-- C4, as stated, fails. The Book form has an empty title, the author `zzz` and the genre
`nope`. The create POST and the update POST leave the store as it is and render `book_form`
with the error of the title, but the book view-model has no author and no genre: the two
strings are not identifiers, the constructor drops them, and the submitted values of these
other fields are not carried. -/
theorem book_post_uncast_refs_counterexample :
    book_create_post DateLib.none sampleDb freshId uncastRefsBody =
        (sampleDb, .render "book_form"
          [("title", .text "Create Book"), ("authors", .authors [sampleAuthor]),
            ("genres", .genreChoices [(sampleGenre, false)]),
            ("book", .book ⟨freshId, .val "", .undef, .val "A novel", .val "123", []⟩),
            ("errors", .errors [⟨"title", "Title must not be empty.", .str ""⟩])]) ∧
      book_update_post DateLib.none sampleDb bookId uncastRefsBody =
        (sampleDb, .render "book_form"
          [("title", .text "Update Book"), ("authors", .authors [sampleAuthor]),
            ("genres", .genreChoices [(sampleGenre, false)]),
            ("book", .book ⟨bookId, .val "", .undef, .val "A novel", .val "123", []⟩),
            ("errors", .errors [⟨"title", "Title must not be empty.", .str ""⟩])]) := by
  decide

/-- C4, amended. When a required field of a Book form (title, author, summary or isbn) is
submitted empty or is absent, the create POST and the update POST both leave the store as it is
and render `book_form` with a non-empty list of errors and a book view-model (for the update,
under the identifier of the route) whose title, summary and isbn are the submitted strings,
trimmed and escaped, whose author is the identifier the sanitized author string casts to and is
unset when the string does not cast, and whose genre is the identifiers the sanitized genre
strings cast to and is empty when one of them does not cast. -/
theorem book_post_empty_required (L : DateLib) (db : Db) (id : ObjectId) (body : BookBody)
    (hempty : body.title.getD "" = "" ∨ body.author.getD "" = "" ∨
      body.summary.getD "" = "" ∨ body.isbn.getD "" = "") :
    (∃ authors genres book errors,
        book_create_post L db id body =
          (db, .render "book_form"
            [("title", .text "Create Book"), ("authors", authors), ("genres", genres),
              ("book", .book book), ("errors", .errors errors)]) ∧
        errors ≠ [] ∧ Book.CarriesCast escape body book) ∧
      ∃ authors genres book errors,
        book_update_post L db id body =
          (db, .render "book_form"
            [("title", .text "Update Book"), ("authors", authors), ("genres", genres),
              ("book", .book book), ("errors", .errors errors)]) ∧
        errors ≠ [] ∧ book._id = id ∧
          Book.CarriesCast (fun s => escape (trim s)) body book := by
  constructor
  · have herr := book_create_post_chains_errors L (book_create_post_genre body)
      (by simpa [book_create_post_genre_eq] using hempty)
    have hf := book_create_post_chains_fields L (book_create_post_genre body)
    simp only [book_create_post_genre_eq, GenreInput.mapElems] at hf
    refine ⟨.authors (Author.findSorted db),
      .genreChoices ((Genre.findSorted db).map fun g => (g, decide (g._id ∈
        (Book.new L id (book_create_post_chains L (book_create_post_genre body)).1).doc.genre))),
      (Book.new L id (book_create_post_chains L (book_create_post_genre body)).1).doc,
      (book_create_post_chains L (book_create_post_genre body)).2, ?_, herr, ?_⟩
    · simp only [book_create_post]
      rw [if_pos (by simpa [List.isEmpty_iff] using herr)]
    · rw [book_create_post_genre_eq, hf]
      exact Book.new_carriesCast L id body escape
  · have herr := book_update_post_chains_errors L (book_update_post_genre body)
      (by simpa [book_update_post_genre_eq] using hempty)
    have hf := book_update_post_chains_fields L (book_update_post_genre body)
    simp only [book_update_post_genre_eq, GenreInput.mapElems] at hf
    refine ⟨.authors db.authors,
      .genreChoices (db.genres.map fun g => (g, decide (g._id ∈
        (Book.new L id (book_update_post_chains L (book_update_post_genre body)).1).doc.genre))),
      (Book.new L id (book_update_post_chains L (book_update_post_genre body)).1).doc,
      (book_update_post_chains L (book_update_post_genre body)).2, ?_, herr, ?_, ?_⟩
    · simp only [book_update_post]
      rw [if_pos (by simpa [List.isEmpty_iff] using herr)]
    · rfl
    · rw [book_update_post_genre_eq, hf]
      exact Book.new_carriesCast L id body _

/-- C4 amended, at a Book form with an empty title. -/
theorem book_post_empty_required_witness :
    (∃ authors genres book errors,
        book_create_post DateLib.none sampleDb freshId emptyTitleBody =
          (sampleDb, .render "book_form"
            [("title", .text "Create Book"), ("authors", authors), ("genres", genres),
              ("book", .book book), ("errors", .errors errors)]) ∧
        errors ≠ [] ∧ Book.CarriesCast escape emptyTitleBody book) ∧
      ∃ authors genres book errors,
        book_update_post DateLib.none sampleDb freshId emptyTitleBody =
          (sampleDb, .render "book_form"
            [("title", .text "Update Book"), ("authors", authors), ("genres", genres),
              ("book", .book book), ("errors", .errors errors)]) ∧
        errors ≠ [] ∧ book._id = freshId ∧
          Book.CarriesCast (fun s => escape (trim s)) emptyTitleBody book :=
  book_post_empty_required DateLib.none sampleDb freshId emptyTitleBody (Or.inl rfl)

/-- C5, the failing input. The Genre is stored and no Book is of it; the Genre delete POST
deletes it and redirects to `/catalog/books`, which is not the list view of the Genres. For an
identifier that is not stored the same handler redirects to `/catalog/genres`. -/
theorem genre_delete_post_redirects_to_books :
    Entity.genre.stored looseDb genreId = true ∧ Entity.genre.dependents looseDb genreId = 0 ∧
      genre_delete_post looseDb genreId =
        ({ looseDb with genres := [] }, .redirect "/catalog/books") ∧
      Response.redirect "/catalog/books" ≠ Response.redirect Entity.genre.listUrl ∧
      genre_delete_post looseDb missingId = (looseDb, .redirect "/catalog/genres") := by
  decide

/-- C6, as stated, fails. No record of the sample store is stored under the route parameter
`abc`, which does not cast to an identifier. The queries of the detail handlers throw a cast
error, which has no status: `author_detail`, `genre_detail` and `bookinstance_detail` pass it
to `next`, and from `book_detail` it escapes, `next` is not called. No handler passes an error
with status 404. -/
theorem detail_uncast_id_counterexample :
    ObjectId.ofString "abc" = none ∧
      (∀ a ∈ sampleDb.authors, a._id.hex ≠ "abc") ∧ (∀ g ∈ sampleDb.genres, g._id.hex ≠ "abc") ∧
      (∀ b ∈ sampleDb.books, b._id.hex ≠ "abc") ∧
      (∀ c ∈ sampleDb.bookinstances, c._id.hex ≠ "abc") ∧
      author_detail sampleDb "abc" = (sampleDb, .next .castError) ∧
      genre_detail sampleDb "abc" = (sampleDb, .next .castError) ∧
      bookinstance_detail sampleDb "abc" = (sampleDb, .next .castError) ∧
      book_detail sampleDb "abc" = (sampleDb, .rejected .castError) ∧
      JsError.castError.status = none := by
  decide

/-- C6, amended. The detail handler of each entity, for a route parameter that casts to an
identifier under which no record of the entity is stored, passes an error with status 404 to
`next` (it renders nothing); for one that casts to the identifier of a stored record it renders
the detail view of the entity (it passes no error to `next`). For a route parameter that does
not cast, the detail handlers of Author, Genre and BookInstance pass an error without a status
to `next`. In every case the store is left as it is. -/
theorem detail_not_found (e : Entity) (db : Db) (param : String) :
    (∀ id, ObjectId.ofString param = some id → e.stored db id = false →
        ∃ err, e.detailAt db param = (db, .next err) ∧ err.status = some 404) ∧
      (∀ id, ObjectId.ofString param = some id → e.stored db id = true →
        ∃ locals, e.detailAt db param = (db, .render e.detailView locals)) ∧
      (ObjectId.ofString param = none → e ≠ .book →
        ∃ err, e.detailAt db param = (db, .next err) ∧ err.status = none) := by
  refine ⟨?_, ?_, ?_⟩
  · intro id hcast h
    obtain ⟨msg, hmsg⟩ := detailAt_of_not_stored e db param id hcast h
    exact ⟨_, hmsg, rfl⟩
  · intro id hcast h
    exact detailAt_of_stored e db param id hcast h
  · intro hcast he
    exact ⟨_, detailAt_of_uncast e db param hcast he, rfl⟩

/-- C6 amended, at a Book identifier that is not stored, at one that is stored and is written
in upper case, and at an Author route parameter that is not an identifier. -/
theorem detail_not_found_witness :
    (∃ err, Entity.book.detailAt sampleDb "f00000000000000000000009" = (sampleDb, .next err) ∧
        err.status = some 404) ∧
      (∃ locals, Entity.book.detailAt sampleDb "B00000000000000000000001" =
        (sampleDb, .render "book_detail" locals)) ∧
      ∃ err, Entity.author.detailAt sampleDb "abc" = (sampleDb, .next err) ∧ err.status = none :=
  ⟨(detail_not_found .book sampleDb "f00000000000000000000009").1 missingId (by decide)
      (by decide),
    (detail_not_found .book sampleDb "B00000000000000000000001").2.1 bookId (by decide)
      (by decide),
    (detail_not_found .author sampleDb "abc").2.2 (by decide) (by decide)⟩

/-- C7, the failing input. No record is stored under the identifier and the bodies pass
validation. Each update POST leaves the store as it is but passes to `next` the `TypeError`
thrown by reading `url` of `null`, which carries no status; the update GET of the Author passes
the error tagged 404. -/
theorem update_post_absent_not_tagged :
    Entity.author.stored sampleDb missingId = false ∧
      (author_update_post_chains DateLib.none ⟨some "Jane", some "Austen", none, none⟩).2 = [] ∧
      author_update_post DateLib.none sampleDb missingId ⟨some "Jane", some "Austen", none, none⟩ =
        (sampleDb, .next .typeError) ∧
      genre_update_post DateLib.none sampleDb missingId (some "Poetry") =
        (sampleDb, .next .typeError) ∧
      book_update_post DateLib.none sampleDb missingId
          ⟨some "Emma", some "a00000000000000000000001", some "A novel", some "123", .undef⟩ =
        (sampleDb, .next .typeError) ∧
      bookinstance_update_post DateLib.none ⟨0⟩ sampleDb missingId
          ⟨some "b00000000000000000000001", some "Penguin", some "Available", none⟩ =
        (sampleDb, .next .typeError) ∧
      JsError.typeError.status = none ∧
      author_update_get sampleDb missingId =
        (sampleDb, .next (.withStatus "Автор не найден!" 404)) := by
  decide

/-- C8, the failing inputs. The chain of the Author create POST reports an error for the first
name `Jane-Marie` and for a first name of one blank; the chain of the update POST reports none
for either (and leaves the empty string as the first name for the blank). -/
theorem author_update_chain_accepts_what_create_rejects :
    (author_create_post_chains DateLib.none ⟨some "Jane-Marie", some "Austen", none, none⟩).2 =
        [⟨"first_name", "First name has non-alphanumeric characters.", .str "Jane-Marie"⟩] ∧
      (author_update_post_chains DateLib.none ⟨some "Jane-Marie", some "Austen", none, none⟩).2 =
        [] ∧
      (author_create_post_chains DateLib.none ⟨some " ", some "Austen", none, none⟩).2 ≠ [] ∧
      author_update_post_chains DateLib.none ⟨some " ", some "Austen", none, none⟩ =
        (⟨.str "", .str "Austen", .str "", .str ""⟩, []) := by
  decide

/-- C9, the failing input. With the book field empty or absent, validation reports an error,
and the BookInstance create POST and update POST pass a `TypeError` to `next` instead of
rendering the form: the locals read `bookinstance.book._id` of a field that did not cast. -/
theorem bookinstance_post_empty_book_calls_next :
    (bookinstance_create_post_chains DateLib.none
        ⟨some "", some "Penguin", some "Available", none⟩).2 =
        [⟨"book", "Book must be specified", .str ""⟩] ∧
      bookinstance_create_post DateLib.none ⟨0⟩ sampleDb freshId
          ⟨some "", some "Penguin", some "Available", none⟩ =
        (sampleDb, .next .typeError) ∧
      bookinstance_create_post DateLib.none ⟨0⟩ sampleDb freshId
          ⟨none, some "Penguin", some "Available", none⟩ =
        (sampleDb, .next .typeError) ∧
      bookinstance_update_post DateLib.none ⟨0⟩ sampleDb copyId
          ⟨some "", some "Penguin", some "Available", none⟩ =
        (sampleDb, .next .typeError) := by
  decide



/-- C10. For an Author create POST whose first name and family name are non-empty alphanumeric
strings and whose dates are absent, with a generated identifier that no stored Author carries:
validation reports no error, the store after the call is the store before it with one more
Author, which has the generated identifier, those names and no dates, and the response is a
redirect to `/catalog/author/` followed by that identifier. -/
theorem author_create_post_valid (L : DateLib) (db : Db) (newId : ObjectId)
    (first_name family_name : String)
    (hfn : isAlphanumeric first_name = true) (hln : isAlphanumeric family_name = true)
    (hfresh : ∀ a ∈ db.authors, a._id ≠ newId) :
    (author_create_post_chains L ⟨some first_name, some family_name, none, none⟩).2 = [] ∧
      author_create_post L db newId ⟨some first_name, some family_name, none, none⟩ =
        ({ db with authors := db.authors ++
            [{ _id := newId, first_name := .val first_name, family_name := .val family_name,
               date_of_birth := .undef, date_of_death := .undef }] },
          .redirect ("/catalog/author/" ++ newId.hex)) := by
  obtain ⟨ht1, he1, hl1, hn1⟩ := sanitize_of_isAlphanumeric first_name hfn
  obtain ⟨ht2, he2, hl2, hn2⟩ := sanitize_of_isAlphanumeric family_name hln
  have hany : db.authors.any (fun x => decide (x._id = newId)) = false := by
    simp only [List.any_eq_false]
    intro g hg
    simpa using hfresh g hg
  have hc : author_create_post_chains L ⟨some first_name, some family_name, none, none⟩ =
      (⟨.str first_name, .str family_name, .undef, .undef⟩, []) := by
    simp [author_create_post_chains, runChain, Item.run, Val.ofBody, toStr_str, Val.truthy,
      ht1, he1, hl1, hfn, ht2, he2, hl2, hln]
  refine ⟨by rw [hc], ?_⟩
  simp [author_create_post, hc, Author.new, castString, castDateField, castOr, Author.save,
    Author.valid, requiredStr, hn1, hn2, hany, Author.url]


/-- C10, at the names "Jane" and "Austen". -/
theorem author_create_post_valid_witness :
    (author_create_post_chains DateLib.none ⟨some "Jane", some "Austen", none, none⟩).2 = [] ∧
      author_create_post DateLib.none sampleDb freshId ⟨some "Jane", some "Austen", none, none⟩ =
        ({ sampleDb with authors := sampleDb.authors ++
            [{ _id := freshId, first_name := .val "Jane", family_name := .val "Austen",
               date_of_birth := .undef, date_of_death := .undef }] },
          .redirect ("/catalog/author/" ++ freshId.hex)) :=
  author_create_post_valid DateLib.none sampleDb freshId "Jane" "Austen" (by decide) (by decide)
    (by decide)

/-- C11, as stated, fails. The copy is stored and the body passes validation, since the book
field `zzz` is not empty. The response is the redirect, imprint and status are written, but
`zzz` does not cast to an identifier, so the update leaves the book field out and the record
keeps the book it had: it does not carry the submitted value. -/
theorem bookinstance_update_post_uncast_book_counterexample :
    BookInstance.findById sampleDb copyId = some sampleCopy ∧
      (bookinstance_update_post_chains DateLib.none
        ⟨some "zzz", some "Vintage", some "Loaned", some ""⟩).2 = [] ∧
      bookinstance_update_post DateLib.none ⟨0⟩ sampleDb copyId
          ⟨some "zzz", some "Vintage", some "Loaned", some ""⟩ =
        ({ sampleDb with bookinstances :=
            [{ _id := copyId, book := .val bookId, imprint := .val "Vintage",
               status := .val "Loaned", due_back := .null }] },
          .redirect "/catalog/bookinstance/c00000000000000000000001") ∧
      ObjectId.ofString "zzz" = none := by
  decide

/-- C11, amended. For each entity, an update POST whose body passes validation and whose
identifier names a stored record redirects to `/catalog/<entity>/<identifier>` and leaves the
collection with the same identifiers and every other record of every collection as it was. The
record then found under the identifier has that identifier and carries the submitted values:
the sanitized strings in its text fields; in a reference field the identifier that the
sanitized string denotes when it is well-formed, while a Book author or BookInstance book
string that is not well-formed leaves the stored reference as it was; in a date field the date
that the submitted string reads as, and `null` for a date submitted empty. -/
theorem update_post_keeps_identifier :
    (∀ (L : DateLib) (db : Db) (id : ObjectId) (body : AuthorBody) (old : Author),
      Author.findById db id = some old → (author_update_post_chains L body).2 = [] →
      (author_update_post L db id body).2 = .redirect ("/catalog/author/" ++ id.hex) ∧
        db.UpdatedAt .author id (author_update_post L db id body).1 ∧
        ∃ a, Author.findById (author_update_post L db id body).1 id = some a ∧ a._id = id ∧
          Author.Carries L body a) ∧
    (∀ (L : DateLib) (db : Db) (id : ObjectId) (name : Option String) (old : Genre),
      Genre.findById db id = some old → (genre_update_post_chains L name).2 = [] →
      (genre_update_post L db id name).2 = .redirect ("/catalog/genre/" ++ id.hex) ∧
        db.UpdatedAt .genre id (genre_update_post L db id name).1 ∧
        Genre.findById (genre_update_post L db id name).1 id =
          some ⟨id, .val (escape (trim (name.getD "")))⟩) ∧
    (∀ (L : DateLib) (db : Db) (id : ObjectId) (body : BookBody) (old : Book),
      Book.findById db id = some old →
      (book_update_post_chains L (book_update_post_genre body)).2 = [] →
      (book_update_post L db id body).2 = .redirect ("/catalog/book/" ++ id.hex) ∧
        db.UpdatedAt .book id (book_update_post L db id body).1 ∧
        ∃ b, Book.findById (book_update_post L db id body).1 id = some b ∧ b._id = id ∧
          Book.Carries (fun s => escape (trim s)) body b ∧
          (ObjectId.ofString (escape (trim (body.author.getD ""))) = none →
            b.author = old.author)) ∧
    (∀ (L : DateLib) (now : JsDate) (db : Db) (id : ObjectId) (body : BookInstanceBody)
      (old : BookInstance),
      BookInstance.findById db id = some old →
      (bookinstance_update_post_chains L body).2 = [] →
      (bookinstance_update_post L now db id body).2 =
          .redirect ("/catalog/bookinstance/" ++ id.hex) ∧
        db.UpdatedAt .bookinstance id (bookinstance_update_post L now db id body).1 ∧
        ∃ b, BookInstance.findById (bookinstance_update_post L now db id body).1 id = some b ∧
          b._id = id ∧ BookInstance.Carries L body b ∧
          (ObjectId.ofString (escape (trim (body.book.getD ""))) = none →
            b.book = old.book)) :=
  ⟨author_update_post_of_valid, genre_update_post_of_valid, book_update_post_of_valid,
    bookinstance_update_post_of_valid⟩

/-- C11 amended, at the sample store: an Author with a date of birth, a Genre renamed, a Book
retitled and a copy set on loan. -/
theorem update_post_keeps_identifier_witness :
    ((author_update_post sampleDates sampleDb authorId
          ⟨some "Jane", some "Austen", some "1970-01-01", some ""⟩).2 =
        .redirect ("/catalog/author/" ++ authorId.hex) ∧
      sampleDb.UpdatedAt .author authorId (author_update_post sampleDates sampleDb authorId
          ⟨some "Jane", some "Austen", some "1970-01-01", some ""⟩).1 ∧
      ∃ a, Author.findById (author_update_post sampleDates sampleDb authorId
            ⟨some "Jane", some "Austen", some "1970-01-01", some ""⟩).1 authorId = some a ∧
          a._id = authorId ∧
          Author.Carries sampleDates ⟨some "Jane", some "Austen", some "1970-01-01", some ""⟩
            a) ∧
    ((genre_update_post DateLib.none sampleDb genreId (some " Fantasy ")).2 =
        .redirect ("/catalog/genre/" ++ genreId.hex) ∧
      sampleDb.UpdatedAt .genre genreId
        (genre_update_post DateLib.none sampleDb genreId (some " Fantasy ")).1 ∧
      Genre.findById (genre_update_post DateLib.none sampleDb genreId (some " Fantasy ")).1
          genreId =
        some ⟨genreId, .val (escape (trim ((some " Fantasy ").getD "")))⟩) ∧
    ((book_update_post DateLib.none sampleDb bookId sampleBookBody).2 =
        .redirect ("/catalog/book/" ++ bookId.hex) ∧
      sampleDb.UpdatedAt .book bookId
        (book_update_post DateLib.none sampleDb bookId sampleBookBody).1 ∧
      ∃ b, Book.findById (book_update_post DateLib.none sampleDb bookId sampleBookBody).1
            bookId = some b ∧
          b._id = bookId ∧ Book.Carries (fun s => escape (trim s)) sampleBookBody b ∧
          (ObjectId.ofString (escape (trim (sampleBookBody.author.getD ""))) = none →
            b.author = sampleBook.author)) ∧
    ((bookinstance_update_post DateLib.none ⟨0⟩ sampleDb copyId sampleCopyBody).2 =
        .redirect ("/catalog/bookinstance/" ++ copyId.hex) ∧
      sampleDb.UpdatedAt .bookinstance copyId
        (bookinstance_update_post DateLib.none ⟨0⟩ sampleDb copyId sampleCopyBody).1 ∧
      ∃ b, BookInstance.findById
            (bookinstance_update_post DateLib.none ⟨0⟩ sampleDb copyId sampleCopyBody).1
            copyId = some b ∧
          b._id = copyId ∧ BookInstance.Carries DateLib.none sampleCopyBody b ∧
          (ObjectId.ofString (escape (trim (sampleCopyBody.book.getD ""))) = none →
            b.book = sampleCopy.book)) :=
  ⟨update_post_keeps_identifier.1 sampleDates sampleDb authorId
      ⟨some "Jane", some "Austen", some "1970-01-01", some ""⟩ sampleAuthor (by decide)
      (by decide),
    update_post_keeps_identifier.2.1 DateLib.none sampleDb genreId (some " Fantasy ")
      sampleGenre (by decide) (by decide),
    update_post_keeps_identifier.2.2.1 DateLib.none sampleDb bookId sampleBookBody sampleBook
      (by decide) (by decide),
    update_post_keeps_identifier.2.2.2 DateLib.none ⟨0⟩ sampleDb copyId sampleCopyBody
      sampleCopy (by decide) (by decide)⟩

/-- C12. For every store the handler `index` leaves the store as it is and renders `index`
with `book_count` the number of Books, `book_instance_count` the number of BookInstances,
`book_instance_available_count` the number of BookInstances whose status is exactly
"Available", `author_count` the number of Authors and `genre_count` the number of Genres; the
count of available copies is at most the count of copies. -/
theorem index_counts (db : Db) :
    index db =
        (db, .render "index"
          [("title", .text "Local Library Home"), ("book_count", .count db.books.length),
            ("book_instance_count", .count db.bookinstances.length),
            ("book_instance_available_count",
              .count (db.bookinstances.countP fun b => decide (b.status = .val "Available"))),
            ("author_count", .count db.authors.length),
            ("genre_count", .count db.genres.length)]) ∧
      (db.bookinstances.countP fun b => decide (b.status = .val "Available")) ≤
        db.bookinstances.length := by
  refine ⟨?_, List.countP_le_length _⟩
  simp only [index, List.countP_eq_length_filter]

/-- C13, the failing input. The Author has neither date stored. Read on 6 November 2026 its
`lifespan` is ` 06-11-2026 - 06-11-2026`, read a day later it is ` 07-11-2026 - 07-11-2026`:
two reads of the same stored fields differ. Its `date_of_birth_formatted`, which tests the date
first, is the empty string in both reads, and `name` and `url` read no clock. -/
theorem author_lifespan_reads_the_clock :
    sampleAuthor.date_of_birth = .undef ∧ sampleAuthor.date_of_death = .undef ∧
      sampleAuthor.lifespan (utcClock 1793923200000) = " 06-11-2026 - 06-11-2026" ∧
      sampleAuthor.lifespan (utcClock 1794009600000) = " 07-11-2026 - 07-11-2026" ∧
      sampleAuthor.date_of_birth_formatted (utcClock 1793923200000) = "" ∧
      sampleAuthor.date_of_birth_formatted (utcClock 1794009600000) = "" ∧
      sampleAuthor.name = "Austen, Jane" ∧
      sampleAuthor.url = "/catalog/author/a00000000000000000000001" := by
  decide

/-- C14, the failing input. The Book is stored and has a copy. The delete GET renders
`book_delete` with the title `Delete Book` and the copies under the key `bookInstances`; the
blocked delete POST renders the same template with the title `Удалить книгу` and the copies
under the key `book_instances`. For the Author the blocked POST and the GET render the same
page. -/
theorem book_delete_post_blocked_page_differs :
    Entity.book.stored sampleDb bookId = true ∧ 0 < Entity.book.dependents sampleDb bookId ∧
      book_delete_get sampleDb bookId =
        (sampleDb, .render "book_delete"
          [("title", .text "Delete Book"), ("book", .book sampleBook),
            ("bookInstances", .bookinstances [sampleCopy])]) ∧
      book_delete_post sampleDb bookId =
        (sampleDb, .render "book_delete"
          [("title", .text "Удалить книгу"), ("book", .book sampleBook),
            ("book_instances", .bookinstances [sampleCopy])]) ∧
      author_delete_post sampleDb authorId = author_delete_get sampleDb authorId := by
  decide

/-- C15. The first middleware of `book_create_post` and of `book_update_post` leaves the genre
an array: an absent genre becomes the empty array, a single value `x` the array `[x]`, and an
array stays as it is; the other fields of the body are unchanged; applying the middleware twice
is applying it once; and the create and update versions agree on every body. -/
theorem book_post_genre_normalised (b : BookBody) (x : String) (l : List String) :
    (book_create_post_genre b).genre.isArray = true ∧
      (book_update_post_genre b).genre.isArray = true ∧
      book_create_post_genre { b with genre := .undef } = { b with genre := .many [] } ∧
      book_create_post_genre { b with genre := .one x } = { b with genre := .many [x] } ∧
      book_create_post_genre { b with genre := .many l } = { b with genre := .many l } ∧
      (book_create_post_genre b).title = b.title ∧
      (book_create_post_genre b).author = b.author ∧
      (book_create_post_genre b).summary = b.summary ∧
      (book_create_post_genre b).isbn = b.isbn ∧
      book_create_post_genre (book_create_post_genre b) = book_create_post_genre b ∧
      book_update_post_genre (book_update_post_genre b) = book_update_post_genre b ∧
      book_update_post_genre b = book_create_post_genre b := by
  have hc := book_create_post_genre_eq b
  have hu := book_update_post_genre_eq b
  refine ⟨?_, ?_, rfl, rfl, rfl, ?_, ?_, ?_, ?_, ?_, ?_, ?_⟩
  · rw [hc]; rfl
  · rw [hu]; rfl
  · rw [hc]
  · rw [hc]
  · rw [hc]
  · rw [hc]
  · rw [hc]; rfl
  · rw [hu]; rfl
  · rw [hc, hu]

/-- C16. In the Book update GET of a stored Book, the list of genres passed to the form is
the stored Genres, each once and in order, and a Genre of the list is marked checked exactly
when its identifier is one of the genre identifiers of the Book. -/
theorem book_update_get_checked (db : Db) (id : ObjectId) (b : Book)
    (hb : Book.findById db id = some b) :
    ∃ choices,
      book_update_get db id =
          (db, .render "book_form"
            [("title", .text "Update Book"), ("authors", .authors db.authors),
              ("genres", .genreChoices choices), ("book", .populatedBook (b.populate db))]) ∧
        choices.map Prod.fst = db.genres ∧
        ∀ g c, (g, c) ∈ choices → (c = true ↔ g._id ∈ b.genre) := by
  refine ⟨db.genres.map fun g =>
    (g, (b.populate db).genre.any fun bookGenre => decide (g._id.hex = bookGenre._id.hex)),
    ?_, ?_, ?_⟩
  · simp only [book_update_get, hb, Option.map_some']
  · simp [List.map_map, Function.comp_def]
  · intro g c hgc
    obtain ⟨g0, hg0, heq⟩ := List.mem_map.mp hgc
    simp only [Prod.mk.injEq] at heq
    obtain ⟨rfl, rfl⟩ := heq
    simp only [Book.populate, List.any_eq_true, List.mem_filterMap, decide_eq_true_eq]
    constructor
    · rintro ⟨bg, ⟨i, hi, hfi⟩, hhex⟩
      have hid := (findById_id_eq db i bg hfi).1
      have : g0._id = bg._id := ObjectId.ext_hex _ _ hhex
      rw [this, hid]
      exact hi
    · intro hmem
      have hsome : (Genre.findById db g0._id).isSome = true := by
        simp only [Genre.findById, List.find?_isSome]
        exact ⟨g0, hg0, by simp⟩
      cases hf : Genre.findById db g0._id with
      | none => simp [hf] at hsome
      | some g1 =>
          refine ⟨g1, ⟨g0._id, hmem, hf⟩, ?_⟩
          rw [(findById_id_eq db _ g1 hf).1]

/-- C16, at the sample Book, which is of the sample Genre. -/
theorem book_update_get_checked_witness :
    ∃ choices,
      book_update_get sampleDb bookId =
          (sampleDb, .render "book_form"
            [("title", .text "Update Book"), ("authors", .authors sampleDb.authors),
              ("genres", .genreChoices choices),
              ("book", .populatedBook (sampleBook.populate sampleDb))]) ∧
        choices.map Prod.fst = sampleDb.genres ∧
        ∀ g c, (g, c) ∈ choices → (c = true ↔ g._id ∈ sampleBook.genre) :=
  book_update_get_checked sampleDb bookId sampleBook (by decide)

end LocalLibrary
